import Mathlib

/-!
Module loader of Core/HLE/sceKernelModule.cpp

A shallow embedding of the module loader: `__KernelLoadELFFromPtr`,
`__KernelLoadPBP`, `__KernelLoadModule` and `sceKernelLoadModule`.

Conventions of the embedding.

* Host memory is a total map from byte index to byte.  Multi-byte fields are
  little-endian and struct fields sit at their natural offsets.
* A 32-bit unsigned value is a `Nat`; subtraction and addition that the code
  does in `u32` are written with an explicit `% 2 ^ 32`.
* The code of `WriteSyscall`, `ResolveSyscall`, `ElfReader`, `pspDecryptPRX`,
  the symbol map, the file system and the kernel-object table is not part of
  this file.  Calls of `WriteSyscall`, `ResolveSyscall` and of the symbol map
  are recorded in order, with their arguments; `ElfReader`, `pspDecryptPRX`
  and the file system are parameters.
* Guest memory is threaded through the import stage: `WriteSyscall` stores
  its patch in the call-site slot, and the loop reads `numFuncs`,
  `firstSymAddr` and `nidData[i]` from guest memory as it stands at each
  iteration; the export stage reads the memory the import stage leaves.
  What `WriteSyscall` stores is a parameter.
-/

namespace PPSSPP

/-! ## Bytes and guest memory -/

/-- Host bytes behind a pointer: index 0 is the byte the pointer points at. -/
abbrev Bytes := Nat → Nat

namespace Bytes

/-- Read of a `u8` at byte index `p`. -/
def u8 (b : Bytes) (p : Nat) : Nat := b p % 256

/-- Read of a little-endian `u16` at byte index `p`. -/
def u16 (b : Bytes) (p : Nat) : Nat := b.u8 p + 256 * b.u8 (p + 1)

/-- Read of a little-endian `u32` at byte index `p`. -/
def u32 (b : Bytes) (p : Nat) : Nat := b.u16 p + 65536 * b.u16 (p + 2)

/-- Pointer arithmetic `ptr + off` on a byte pointer. -/
def advance (b : Bytes) (off : Nat) : Bytes := fun i => b (off + i)

/-- Bytes given by a finite list, zero beyond its end. -/
def ofList (l : List Nat) : Bytes := fun i => l.getD i 0

end Bytes

/-- Guest memory: `Memory::GetPointer` turns a guest address into a host
pointer (an index into `host`). -/
structure Memory where
  GetPointer : Nat → Nat
  host : Bytes

/-- A `const char *` handed to `WriteSyscall` or `ResolveSyscall`: either a
pointer into guest memory or the loaded module's own `nm.name` field, given
with the bytes stored there. -/
inductive CStr where
  | guest (hostPtr : Nat)
  | nmName (stored : Option (List Nat))
  deriving DecidableEq, Repr

/-- Arguments of one call `WriteSyscall(moduleName, nib, address)` or
`ResolveSyscall(moduleName, nib, address)`. -/
structure SyscallRef where
  moduleName : CStr
  nid : Nat
  address : Nat
  deriving DecidableEq, Repr

/-- Calls made to the symbol map and to the function scanner. -/
inductive SymbolEvent where
  | ResetSymbolMap
  | ScanForFunctions (textStart textEnd : Nat)
  | AddSymbol (moduleName : CStr) (nid : Nat) (address : Nat) (size : Nat)
  deriving DecidableEq, Repr

/-! ## Module and the kernel-object table -/

/-- The fields of `NativeModule` the loader writes.  `new Module` leaves `nm`
uninitialised: `none` is a field that has not been written. -/
structure NativeModule where
  name : Option (List Nat)
  entry_addr : Option Nat
  gp_value : Option Nat
  deriving DecidableEq, Repr

/-- Class `Module`: the native record and the owned memory block. -/
structure Module where
  nm : NativeModule
  memoryBlockAddr : Nat
  deriving DecidableEq, Repr

/-- Constructor `Module() : memoryBlockAddr(0) {}`. -/
def Module.new : Module := ⟨⟨none, none, none⟩, 0⟩

/-- Modelled from the spec: the kernel-object table `kernelObjects`
(class `KernelObjectPool`, declared outside this file).  It owns the live
objects, each under a unique id. -/
structure KernelObjectPool where
  objs : List (Nat × Module)
  deriving DecidableEq, Repr

namespace KernelObjectPool

/-- The ids that are live in the table. -/
def uids (p : KernelObjectPool) : List Nat := p.objs.map Prod.fst

/-- Modelled from the spec: the id `Create` hands out, one that is not in
use. -/
def freshUID (p : KernelObjectPool) : Nat := p.uids.foldr max 0 + 1

/-- Modelled from the spec: `create()` allocates a fresh object with a unique
id. -/
def Create (p : KernelObjectPool) (m : Module) : Nat × KernelObjectPool :=
  (p.freshUID, ⟨(p.freshUID, m) :: p.objs⟩)

/-- Modelled from the spec: `get(id)` returns the live object or reports it
missing. -/
def Get (p : KernelObjectPool) (uid : Nat) : Option Module :=
  (p.objs.find? (fun e => e.1 == uid)).map Prod.snd

/-- Modelled from the spec: `destroy(id)` removes the id from the table. -/
def Destroy (p : KernelObjectPool) (uid : Nat) : KernelObjectPool :=
  ⟨p.objs.filter (fun e => !(e.1 == uid))⟩

/-- A write through the `Module *` of the object with id `uid`. -/
def modify (p : KernelObjectPool) (uid : Nat) (f : Module → Module) : KernelObjectPool :=
  ⟨p.objs.map (fun e => if e.1 == uid then (e.1, f e.2) else e)⟩

end KernelObjectPool

/-- The process-wide state the loader works on. -/
structure Kernel where
  kernelObjects : KernelObjectPool
  memory : Memory
  writeSyscalls : List SyscallRef
  resolveSyscalls : List SyscallRef
  symbolMap : List SymbolEvent
  userMemoryFreed : List Nat

/-- Call `kernelObjects.Destroy<Module>(uid)`: the object is deleted, and the
destructor `~Module` frees the owned block when `memoryBlockAddr` is set. -/
def Kernel.Destroy (k : Kernel) (uid : Nat) : Kernel :=
  match k.kernelObjects.Get uid with
  | none => k
  | some m =>
    { k with
      kernelObjects := k.kernelObjects.Destroy uid
      userMemoryFreed :=
        if m.memoryBlockAddr ≠ 0 then k.userMemoryFreed ++ [m.memoryBlockAddr]
        else k.userMemoryFreed }

/-! ## C library routines used by the loader -/

/-- The bytes of a string literal, without the terminating NUL. -/
def cstr (s : String) : List Nat := s.toList.map Char.toNat

/-- Test `strcmp(s, lit) == 0`, where `s` is the byte pointer `b + p` and
`lit` a literal whose terminating NUL is implicit: the strings are compared
byte by byte up to the first difference or the common NUL. -/
def strcmpEq (b : Bytes) (p : Nat) : List Nat → Bool
  | [] => b.u8 p == 0
  | c :: cs => b.u8 p == c && (c == 0 || strcmpEq b (p + 1) cs)

/-- The bytes behind the pointer `b + p` are the NUL-terminated string `s`:
the bytes of `s`, then a NUL. -/
def IsCStr (b : Bytes) (p : Nat) (s : List Nat) : Prop :=
  (∀ i < s.length, s[i]? = some (b.u8 (p + i))) ∧ b.u8 (p + s.length) = 0

instance (b : Bytes) (p : Nat) (s : List Nat) : Decidable (IsCStr b p s) := by
  unfold IsCStr
  exact inferInstance

/-- Call `strncpy(dest, src, n)`, as the `n` bytes written to `dest`: the
bytes of `src` up to `n` of them, and NUL padding from the first NUL on.  No
terminator is added when `src` has no NUL among its first `n` bytes. -/
def strncpy (b : Bytes) (p : Nat) : Nat → List Nat
  | 0 => []
  | n + 1 => if b.u8 p = 0 then List.replicate (n + 1) 0 else b.u8 p :: strncpy b (p + 1) n

/-- Test `memcmp(ptr, lit, n) == 0` for the `n = lit.length` bytes of `lit`. -/
def memcmpEq (b : Bytes) (p : Nat) : List Nat → Bool
  | [] => true
  | c :: cs => b.u8 p == c && memcmpEq b (p + 1) cs

/-- Subtraction of two `u32` values. -/
def u32sub (a b : Nat) : Nat := (a + 2 ^ 32 - b % 2 ^ 32) % 2 ^ 32

/-- Addition of two `u32` values. -/
def u32add (a b : Nat) : Nat := (a + b) % 2 ^ 32

/-! ## The loader's tables -/

/-- Table `blacklistedModules`. -/
def blacklistedModules : List (List Nat) :=
  [ cstr "sceATRAC3plus_Library",
    cstr "sceFont_Library",
    cstr "SceFont_Library",
    cstr "sceNetAdhocctl_Library",
    cstr "sceNetAdhocDownload_Library",
    cstr "sceNetAdhocMatching_Library",
    cstr "sceNetAdhoc_Library",
    cstr "sceNetApctl_Library",
    cstr "sceNetInet_Library",
    cstr "sceNet_Library" ]

/-- Fields of `struct PspModuleInfo` read through the pointer `modinfo`:
`moduleAttrs` at 0, `moduleVersion` at 2, `name[28]` at 4, `gp` at 32,
`libent` at 36, `libentend` at 40, `libstub` at 44, `libstubend` at 48. -/
structure PspModuleInfo where
  name : Nat
  gp : Nat
  libent : Nat
  libentend : Nat
  libstub : Nat
  libstubend : Nat
  deriving DecidableEq, Repr

/-- The header behind the pointer `modinfo`; `name` is the pointer to the
28-byte array. -/
def PspModuleInfo.at (mem : Memory) (modinfo : Nat) : PspModuleInfo :=
  { name := modinfo + 4
    gp := mem.host.u32 (modinfo + 32)
    libent := mem.host.u32 (modinfo + 36)
    libentend := mem.host.u32 (modinfo + 40)
    libstub := mem.host.u32 (modinfo + 44)
    libstubend := mem.host.u32 (modinfo + 48) }

/-- Fields of `struct PspLibStubEntry` (20 bytes): `name` at 0, `version` at
4, `flags` at 6, `size` at 8, `numFuncs` at 10, `nidData` at 12,
`firstSymAddr` at 16. -/
structure PspLibStubEntry where
  name : Nat
  numFuncs : Nat
  nidData : Nat
  firstSymAddr : Nat
  deriving DecidableEq, Repr

/-- The stub entry behind the host pointer `e`. -/
def PspLibStubEntry.at (mem : Memory) (e : Nat) : PspLibStubEntry :=
  { name := mem.host.u32 e
    numFuncs := mem.host.u16 (e + 10)
    nidData := mem.host.u32 (e + 12)
    firstSymAddr := mem.host.u32 (e + 16) }

/-- Fields of `struct PspLibEntEntry` (16 bytes): `name` at 0, `version` at
4, `flags` at 6, `size` at 8, `vcount` at 9, `fcount` at 10, `resident` at
12. -/
structure PspLibEntEntry where
  name : Nat
  size : Nat
  vcount : Nat
  fcount : Nat
  resident : Nat
  deriving DecidableEq, Repr

/-- The export entry behind the host pointer `e`. -/
def PspLibEntEntry.at (mem : Memory) (e : Nat) : PspLibEntEntry :=
  { name := mem.host.u32 e
    size := mem.host.u8 (e + 8)
    vcount := mem.host.u8 (e + 9)
    fcount := mem.host.u16 (e + 10)
    resident := mem.host.u32 (e + 12) }

/-! ## External collaborators -/

/-- Class `ElfReader`, declared outside this file: what its member functions
answer for the image it was constructed on.  `LoadInto` maps the segments
into guest memory and fails with `none`; section ids are `int`, `-1` for a
missing section. -/
structure ElfReader where
  LoadInto : Nat → Memory → Option Memory
  GetVaddr : Nat
  GetSectionByName : String → Int
  GetSectionAddr : Int → Nat
  GetSectionSize : Int → Nat
  GetSegmentPaddr : Nat → Nat
  GetSegmentOffset : Nat → Nat
  GetEntryPoint : Nat
  LoadSymbols : Bool

/-- The code and constants outside this file that the loader uses.
`elf_size` and `psp_size` read the two fields of `PSP_Header`,
`pspDecryptPRX in size` is the output buffer after the call
`pspDecryptPRX(in, out, size)`, `reader ptr` is the `ElfReader` constructed
on `ptr`, and `WriteSyscall mem moduleName nib address` is the host memory
after the call `WriteSyscall(moduleName, nib, address)` made on guest memory
`mem` (it patches the call-site slot at `address`). -/
structure Env where
  elf_size : Bytes → Nat
  psp_size : Bytes → Nat
  pspDecryptPRX : Bytes → Nat → Bytes
  reader : Bytes → ElfReader
  WriteSyscall : Memory → CStr → Nat → Nat → Bytes
  AttemptLoadSymbolMap : Bool
  PSP_GetDefaultLoadAddress : Nat
  SCE_KERNEL_ERROR_NOFILE : Nat
  SCE_KERNEL_ERROR_ILLEGAL_OBJECT : Nat

/-! ## Imports -/

/-- One iteration of the inner import loop: the call of `WriteSyscall`, and
the value `nidDataPtr[i]` read again after it for the name of the symbol
(`GetFuncName(modulename, nidDataPtr[i])`). -/
structure ImportedFunc where
  call : SyscallRef
  symbolNid : Nat
  deriving DecidableEq, Repr

/-- Guest memory after the call `WriteSyscall(c.moduleName, c.nid, c.address)`. -/
def Memory.patched (env : Env) (mem : Memory) (c : SyscallRef) : Memory :=
  { mem with host := env.WriteSyscall mem c.moduleName c.nid c.address }

/-- The inner loop `for (int i = 0; i < entry[m].numFuncs; i++)` from index
`i` on, for the stub entry behind `e`: its iterations and the guest memory it
leaves.  The bound `entry[m].numFuncs`, the field `entry[m].firstSymAddr`
and the word `nidDataPtr[i]` are read from guest memory as it stands at each
iteration.  `fuel` bounds the number of iterations; `numFuncs` is a `u16`,
so `65536` is never used up. -/
def importFuncs (env : Env) (modulename : CStr) (nidDataPtr e : Nat) :
    (fuel : Nat) → (i : Nat) → Memory → List ImportedFunc × Memory
  | 0, _, mem => ([], mem)
  | fuel + 1, i, mem =>
    if i < (PspLibStubEntry.at mem e).numFuncs then
      let call : SyscallRef :=
        ⟨modulename, mem.host.u32 (nidDataPtr + 4 * i),
          u32add (PspLibStubEntry.at mem e).firstSymAddr (i * 8)⟩
      let mem1 := mem.patched env call
      let r := importFuncs env modulename nidDataPtr e fuel (i + 1) mem1
      (⟨call, mem1.host.u32 (nidDataPtr + 4 * i)⟩ :: r.1, r.2)
    else ([], mem)

/-- The body of the loop over import groups, for the stub entry behind `e`:
`modulename` and `nidDataPtr` are read once, before the inner loop. -/
def importGroup (env : Env) (mem : Memory) (e : Nat) : List ImportedFunc × Memory :=
  let entry := PspLibStubEntry.at mem e
  importFuncs env (CStr.guest (mem.GetPointer entry.name)) (mem.GetPointer entry.nidData) e
    65536 0 mem

/-- The loop `for (int m = 0; m < numModules; m++)` over `entry[m]`, with
`remaining` iterations to go from index `m`: the iterations of each group
and the guest memory the loop leaves. -/
def importLoop (env : Env) (entry : Nat) :
    (remaining : Nat) → (m : Nat) → Memory → List (List ImportedFunc) × Memory
  | 0, _, mem => ([], mem)
  | n + 1, m, mem =>
    let g := importGroup env mem (entry + 20 * m)
    let r := importLoop env entry n (m + 1) g.2
    (g.1 :: r.1, r.2)

/-- Value `numModules = (modinfo->libstubend - modinfo->libstub)/sizeof(PspLibStubEntry)`.
The quotient is below `2 ^ 31`, so the conversion to `int` keeps it. -/
def numModules (modinfo : PspModuleInfo) : Nat := u32sub modinfo.libstubend modinfo.libstub / 20

/-- The import stage: the iterations of each import group, and the guest
memory after the last patch.  `numModules` and the pointer `entry` are
worked out once, before the loop. -/
def importGroups (env : Env) (mem : Memory) (modinfo : Nat) :
    List (List ImportedFunc) × Memory :=
  let mi := PspModuleInfo.at mem modinfo
  importLoop env (mem.GetPointer mi.libstub) (numModules mi) 0 mem

/-- The host bytes the import stage reads its table from, in the guest memory
`mem` the segments were mapped into: the bytes of the `numModules` stub
entries, and the bytes of `nidData[i]` for `i < numFuncs` of each. -/
def importTableByte (mem : Memory) (modinfo : Nat) (p : Nat) : Prop :=
  (∃ m, m < numModules (PspModuleInfo.at mem modinfo) ∧
    mem.GetPointer (PspModuleInfo.at mem modinfo).libstub + 20 * m ≤ p ∧
    p < mem.GetPointer (PspModuleInfo.at mem modinfo).libstub + 20 * m + 20) ∨
  (∃ m i, m < numModules (PspModuleInfo.at mem modinfo) ∧
    i < (PspLibStubEntry.at mem
      (mem.GetPointer (PspModuleInfo.at mem modinfo).libstub + 20 * m)).numFuncs ∧
    mem.GetPointer (PspLibStubEntry.at mem
      (mem.GetPointer (PspModuleInfo.at mem modinfo).libstub + 20 * m)).nidData + 4 * i ≤ p ∧
    p < mem.GetPointer (PspLibStubEntry.at mem
      (mem.GetPointer (PspModuleInfo.at mem modinfo).libstub + 20 * m)).nidData + 4 * i + 4)

/-- The stub entry `entry[m]` as the guest memory `mem` holds it. -/
def stubEntry (mem : Memory) (modinfo m : Nat) : PspLibStubEntry :=
  PspLibStubEntry.at mem (mem.GetPointer (PspModuleInfo.at mem modinfo).libstub + 20 * m)

/-- The call `WriteSyscall(name of group m, nidData_m[i], entry[m].firstSymAddr + 8*i)`
with every argument taken from the table as the guest memory `mem` holds it. -/
def tableCall (mem : Memory) (modinfo m i : Nat) : SyscallRef :=
  ⟨CStr.guest (mem.GetPointer (stubEntry mem modinfo m).name),
    mem.host.u32 (mem.GetPointer (stubEntry mem modinfo m).nidData + 4 * i),
    u32add (stubEntry mem modinfo m).firstSymAddr (i * 8)⟩

/-- The host bytes `h` hold the import table of `mem` as `mem` holds it. -/
def KeepsImportTable (mem : Memory) (modinfo : Nat) (h : Bytes) : Prop :=
  ∀ p, importTableByte mem modinfo p → h.u8 p = mem.host.u8 p

/-! ## Exports -/

/-- The inner loop `for (u32 j = 0; j < ent->fcount; j++)`, with `remaining`
iterations to go from index `j`: the calls of `ResolveSyscall`. -/
def exportFuncs (mem : Memory) (name : CStr) (residentPtr fcount vcount : Nat) :
    (remaining : Nat) → (j : Nat) → List SyscallRef
  | 0, _ => []
  | n + 1, j =>
    ⟨name, mem.host.u32 (residentPtr + 4 * j), mem.host.u32 (residentPtr + 4 * (fcount + vcount + j))⟩ ::
      exportFuncs mem name residentPtr fcount vcount n (j + 1)

/-- The calls of `ResolveSyscall` made for the entry behind `ent`, once its
`size` has been found non-zero. -/
def exportEntry (mem : Memory) (nmName : Option (List Nat)) (ent : Nat) : List SyscallRef :=
  let e := PspLibEntEntry.at mem ent
  let name := if e.name = 0 then CStr.nmName nmName else CStr.guest (mem.GetPointer e.name)
  exportFuncs mem name (mem.GetPointer e.resident) e.fcount e.vcount e.fcount 0

/-- The pointer `ent` after the entry behind `ent` has been handled. -/
def nextEnt (mem : Memory) (ent : Nat) : Nat :=
  let e := PspLibEntEntry.at mem ent
  if e.size > 4 then ent + e.size * 4 else ent + 16

/-- The loop `for (int m = 0; m < numEnts; m++)` with the running pointer
`ent`, `remaining` iterations to go: the calls of each iteration.  On
`ent->size == 0` the iteration ends at `continue`, before `ent` is moved. -/
def exportLoop (mem : Memory) (nmName : Option (List Nat)) : (remaining : Nat) → (ent : Nat) → List (List SyscallRef)
  | 0, _ => []
  | n + 1, ent =>
    if (PspLibEntEntry.at mem ent).size = 0 then
      [] :: exportLoop mem nmName n ent
    else
      exportEntry mem nmName ent :: exportLoop mem nmName n (nextEnt mem ent)

/-- The pointer `ent` at the start of iteration `t` of the export loop, when
the loop is entered with the pointer `ent`. -/
def entAt (mem : Memory) : (t : Nat) → (ent : Nat) → Nat
  | 0, ent => ent
  | t + 1, ent =>
    entAt mem t (if (PspLibEntEntry.at mem ent).size = 0 then ent else nextEnt mem ent)

/-- Value `numEnts = (modinfo->libentend - modinfo->libent)/sizeof(PspLibEntEntry)`.
The quotient is below `2 ^ 31`, so the conversion to `int` keeps it. -/
def numEnts (modinfo : PspModuleInfo) : Nat := u32sub modinfo.libentend modinfo.libent / 16

/-- The export stage: one list of `ResolveSyscall` calls per loop iteration. -/
def exportIterations (mem : Memory) (nmName : Option (List Nat)) (modinfo : Nat) : List (List SyscallRef) :=
  let mi := PspModuleInfo.at mem modinfo
  exportLoop mem nmName (numEnts mi) (mem.GetPointer mi.libent)

/-! ## __KernelLoadELFFromPtr -/

/-- The decryption gate at the head of `__KernelLoadELFFromPtr`: the buffer
`ptr` points at afterwards, and the length of the array `newptr` when one
was allocated. -/
def decryptGate (env : Env) (ptr : Bytes) : Bytes × Option Nat :=
  if ptr.u32 0 = 0x5053507e then
    (env.pspDecryptPRX ptr (env.psp_size ptr), some (u32add (env.elf_size ptr) (env.psp_size ptr)))
  else
    (ptr, none)

/-- The local `u32 size` of the decryption gate once `ptr` is found to start
with the magic `0x5053507e`: `head->elf_size`, replaced by `head->psp_size`
when that is larger.  The code does not use it afterwards. -/
def decryptGateSize (env : Env) (ptr : Bytes) : Nat :=
  let size := env.elf_size ptr
  if env.psp_size ptr > size then env.psp_size ptr else size

/-- The pointer `modinfo`: the section `.rodata.sceModuleInfo` when the image
has one, and else the address computed from the first segment. -/
def modinfoPtr (reader : ElfReader) (mem : Memory) : Nat :=
  let sceModuleInfoSection := reader.GetSectionByName ".rodata.sceModuleInfo"
  if sceModuleInfoSection ≠ -1 then
    mem.GetPointer (reader.GetSectionAddr sceModuleInfoSection)
  else
    mem.GetPointer
      (u32sub (u32add reader.GetVaddr (reader.GetSegmentPaddr 0 % 2 ^ 31)) (reader.GetSegmentOffset 0))

/-- The blacklist loop: `strcmp(modinfo->name, blacklistedModules[i]) == 0`
for some `i`. -/
def isBlacklisted (mem : Memory) (modinfo : Nat) : Bool :=
  blacklistedModules.any (fun b => strcmpEq mem.host (PspModuleInfo.at mem modinfo).name b)

/-- The block on the `.text` section: the symbol-map calls it makes and the
flag `dontadd` it leaves. -/
def textSymbols (env : Env) (reader : ElfReader) : List SymbolEvent × Bool :=
  let textSection := reader.GetSectionByName ".text"
  if textSection ≠ -1 then
    let textStart := reader.GetSectionAddr textSection
    let textSize := reader.GetSectionSize textSection
    if !env.AttemptLoadSymbolMap then
      if !reader.LoadSymbols then
        ([SymbolEvent.ResetSymbolMap, SymbolEvent.ScanForFunctions textStart (u32add textStart textSize)], false)
      else ([], false)
    else ([], true)
  else ([], false)

/-- What `__KernelLoadELFFromPtr` hands back: the `Module *` (as the id of
the object, `none` for the null pointer), the string behind `error_string`
and the state left behind. -/
structure LoadResult where
  module : Option Nat
  error_string : String
  kernel : Kernel

/-- The part of `__KernelLoadELFFromPtr` after the blacklist check, for the
module `uid` and the guest memory `k.memory` with the segments mapped.  The
name and GP value are copied before the import stage; the export stage runs
on the guest memory the import stage leaves. -/
def linkModule (env : Env) (reader : ElfReader) (uid : Nat) (error_string : String) (k : Kernel) :
    LoadResult :=
  let mem := k.memory
  let modinfo := modinfoPtr reader mem
  let mi := PspModuleInfo.at mem modinfo
  let sym := textSymbols env reader
  let dontadd := sym.2
  let nmName := some (strncpy mem.host mi.name 28)
  let objs1 := k.kernelObjects.modify uid
    (fun m => { m with nm := { m.nm with gp_value := some mi.gp, name := nmName } })
  let imported := importGroups env mem modinfo
  let imports := imported.1.flatten
  let mem1 := imported.2
  let added :=
    if dontadd then []
    else imports.map (fun f => SymbolEvent.AddSymbol f.call.moduleName f.symbolNid f.call.address 8)
  let exports := (exportIterations mem1 nmName modinfo).flatten
  let objs2 := objs1.modify uid
    (fun m => { m with nm := { m.nm with entry_addr := some reader.GetEntryPoint } })
  { module := some uid
    error_string := error_string
    kernel :=
      { k with
        kernelObjects := objs2
        memory := mem1
        writeSyscalls := k.writeSyscalls ++ imports.map (fun f => f.call)
        symbolMap := k.symbolMap ++ sym.1 ++ added
        resolveSyscalls := k.resolveSyscalls ++ exports } }

/-- Function `__KernelLoadELFFromPtr(ptr, loadAddress, error_string)`. -/
def __KernelLoadELFFromPtr (env : Env) (ptr : Bytes) (loadAddress : Nat) (error_string : String)
    (k : Kernel) : LoadResult :=
  let created := k.kernelObjects.Create Module.new
  let uid := created.1
  let k1 : Kernel := { k with kernelObjects := created.2 }
  let ptr1 := (decryptGate env ptr).1
  if ptr1.u32 0 = 0x4543537e then
    ⟨none, "Kernel module?", k1.Destroy uid⟩
  else if ptr1.u32 0 ≠ 0x464c457f then
    ⟨none, "File corrupt", k1.Destroy uid⟩
  else
    let reader := env.reader ptr1
    match reader.LoadInto loadAddress k1.memory with
    | none => ⟨none, error_string, k1.Destroy uid⟩
    | some mem =>
      let k2 : Kernel :=
        { k1 with
          memory := mem
          kernelObjects := k1.kernelObjects.modify uid
            (fun m => { m with memoryBlockAddr := reader.GetVaddr }) }
      if isBlacklisted mem (modinfoPtr reader mem) then
        ⟨none, "Blacklisted", k2.Destroy uid⟩
      else
        linkModule env reader uid error_string k2

/-! ## Container unwrapping -/

/-- The container magic `"\0PBP"`. -/
def pbpMagic : List Nat := [0x00, 0x50, 0x42, 0x50]

/-- The array `u32 offsets[16]` before anything is stored in it: `none` is
an element that has not been written. -/
def offsetsUninit : List (Option Nat) := List.replicate 16 none

/-- The loop `for (int i = 1; i < numfiles; i++) memcpy(&offsets[i],
fileptr + 12 + 4*i, 4)` of `__KernelLoadModule`, with `remaining` iterations
to go from index `i`.  A store past `offsets[15]` has no defined result. -/
def loadModuleOffsets (fileptr : Bytes) :
    (remaining : Nat) → (i : Nat) → List (Option Nat) → Option (List (Option Nat))
  | 0, _, offsets => some offsets
  | n + 1, i, offsets =>
    if i < 16 then
      loadModuleOffsets fileptr n (i + 1) (offsets.set i (some (fileptr.u32 (12 + 4 * i))))
    else none

/-- The byte offset `__KernelLoadModule` adds to `fileptr` before it calls
the ELF loader; `none` when the code reads an element of `offsets` that was
never written or stores outside the array. -/
def loadModuleElfOffset (fileptr : Bytes) : Option Nat :=
  if memcmpEq fileptr 0 pbpMagic then
    let offset0 := fileptr.u32 8
    let numfiles := u32sub offset0 8 / 4
    (loadModuleOffsets fileptr (numfiles - 1) 1 (offsetsUninit.set 0 (some offset0))).bind
      (fun offsets => offsets.getD 5 none)
  else some 0

/-- Function `__KernelLoadModule(fileptr, options, error_string)`; `none`
when the offset of the executable has no defined value. -/
def __KernelLoadModule (env : Env) (fileptr : Bytes) (error_string : String) (k : Kernel) :
    Option LoadResult :=
  (loadModuleElfOffset fileptr).map
    (fun off => __KernelLoadELFFromPtr env (fileptr.advance off) env.PSP_GetDefaultLoadAddress error_string k)

/-- A `std::ifstream` opened on a file: its bytes and the read position. -/
structure IfStream where
  file : Bytes
  pos : Nat

/-- Call `in.read((char*)&x, 4)` for a `u32 x`: the value read and the
stream after it. -/
def IfStream.readU32 (s : IfStream) : Nat × IfStream :=
  (s.file.u32 s.pos, { s with pos := s.pos + 4 })

/-- The loop `for (int i = 1; i < numfiles; i++) in.read((char*)&offsets[i], 4)`
of `__KernelLoadPBP`, with `remaining` iterations to go from index `i`. -/
def loadPBPOffsets :
    (remaining : Nat) → (i : Nat) → IfStream → List (Option Nat) → Option (List (Option Nat) × IfStream)
  | 0, _, s, offsets => some (offsets, s)
  | n + 1, i, s, offsets =>
    if i < 16 then
      loadPBPOffsets n (i + 1) s.readU32.2 (offsets.set i (some s.readU32.1))
    else none

/-- The position `__KernelLoadPBP` seeks to with `in.seekg(offsets[5])`,
for a file that starts with the container magic; `none` as in
`loadModuleElfOffset`. -/
def loadPBPSeek (file : Bytes) : Option Nat :=
  let s0 : IfStream := ⟨file, 4⟩
  let version := s0.readU32
  let offset0 := version.2.readU32
  let numfiles := u32sub offset0.1 8 / 4
  (loadPBPOffsets (numfiles - 1) 1 offset0.2 (offsetsUninit.set 0 (some offset0.1))).bind
    (fun r => r.1.getD 5 none)

/-- Function `__KernelLoadPBP(filename, error_string)` on the bytes of the
file: the `bool` it returns, the error string, the program counter it sets
and the state. -/
def __KernelLoadPBP (env : Env) (file : Bytes) (error_string : String) (pc : Nat) (k : Kernel) :
    Option (Bool × String × Nat × Kernel) :=
  if !memcmpEq file 0 pbpMagic then
    some (false, "Not a valid homebrew PBP", pc, k)
  else
    (loadPBPSeek file).map (fun off =>
      let r := __KernelLoadELFFromPtr env (file.advance off) env.PSP_GetDefaultLoadAddress error_string k
      match r.module with
      | none => (false, r.error_string, pc, r.kernel)
      | some uid =>
        (true, r.error_string,
          (((r.kernel.kernelObjects.Get uid).bind (fun m => m.nm.entry_addr)).getD pc), r.kernel))

/-! ## sceKernelLoadModule -/

/-- The fields of `PSPFileInfo` that `sceKernelLoadModule` looks at
(`exists` and `size`). -/
structure PSPFileInfo where
  exists_ : Bool
  size : Nat

/-- The file system `pspFileSystem`: `ReadFile name` is the buffer `temp`
after the file has been read into it. -/
structure FileSystem where
  GetFileInfo : String → PSPFileInfo
  ReadFile : String → Bytes

/-- Function `sceKernelLoadModule(name, flags)`; a null `name` is `none`.
The result is the `u32` handed to the guest and the state. -/
def sceKernelLoadModule (env : Env) (fs : FileSystem) (name : Option String) (k : Kernel) :
    Nat × Kernel :=
  match name with
  | none => (0, k)
  | some name =>
    let info := fs.GetFileInfo name
    if !info.exists_ then (env.SCE_KERNEL_ERROR_NOFILE, k)
    else if info.size = 0 then (env.SCE_KERNEL_ERROR_ILLEGAL_OBJECT, k)
    else
      let r := __KernelLoadELFFromPtr env (fs.ReadFile name) 0 "" k
      match r.module with
      | none => (1, r.kernel)
      | some uid => (uid, r.kernel)

/-! ## A small image used to exercise the statements -/

/-- The four bytes of a `u32`, little-endian. -/
def le32 (v : Nat) : List Nat := [v % 256, v / 256 % 256, v / 65536 % 256, v / 16777216 % 256]

/-- The two bytes of a `u16`, little-endian. -/
def le16 (v : Nat) : List Nat := [v % 256, v / 256 % 256]

/-- Guest memory whose host bytes are `l`, guest address `0x08800000 + i`
being host byte `i`. -/
def memOfList (l : List Nat) : Memory := ⟨fun a => a % 0x1000, Bytes.ofList l⟩

/-- A module-info header at host byte 0 with the name `name`, followed by
two stub entries at 52 and 72, two export entries at 92 and 108 (the first
with record size `entSize0`), the string `LibA` at 124, the nid arrays at
132 and 140 and a resident table at 144. -/
def demoImage (name : List Nat) (entSize0 : Nat) : List Nat :=
  le16 0 ++ le16 0x0101 ++ (name ++ List.replicate (28 - name.length) 0) ++ le32 0x08808000 ++
    le32 0x0880005c ++ le32 0x0880007c ++ le32 0x08800034 ++ le32 0x0880005c ++
  (le32 0x0880007c ++ le16 0x0011 ++ le16 0 ++ le16 5 ++ le16 2 ++ le32 0x08800084 ++ le32 0x08800200) ++
  (le32 0x0880007c ++ le16 0x0011 ++ le16 0 ++ le16 5 ++ le16 1 ++ le32 0x0880008c ++ le32 0x08800210) ++
  (le32 0 ++ le16 0 ++ le16 0 ++ [entSize0, 0] ++ le16 0 ++ le32 0) ++
  (le32 0 ++ le16 0 ++ le16 0 ++ [4, 1] ++ le16 1 ++ le32 0x08800090) ++
  cstr "LibA" ++ [0, 0, 0, 0] ++
  le32 0x11111111 ++ le32 0x22222222 ++ le32 0x33333333 ++
  le32 0xAAAA0001 ++ le32 0xBBBB0002 ++ le32 0x08804000 ++ le32 0x08805000

/-- An `ElfReader` whose `LoadInto` succeeds with guest memory `mem` and
which has no named section; the module info is found through segment 0. -/
def demoReader (mem : Option Memory) : ElfReader :=
  { LoadInto := fun _ _ => mem
    GetVaddr := 0x08800000
    GetSectionByName := fun _ => -1
    GetSectionAddr := fun _ => 0
    GetSectionSize := fun _ => 0
    GetSegmentPaddr := fun _ => 0x80000060
    GetSegmentOffset := fun _ => 0x60
    GetEntryPoint := 0x08804000
    LoadSymbols := false }

/-- Modelled from the spec: `WriteSyscall`, whose code is outside this file,
patches the 8-byte call-site slot with one dispatch and one return
instruction.  This one stores the words `jr ra` (`0x03E00008`) and `syscall`
(`0x0000000C`) in the slot at `address` and leaves every other byte as it
was. -/
def demoWriteSyscall (mem : Memory) (_moduleName : CStr) (_nib : Nat) (address : Nat) : Bytes :=
  fun p =>
    if mem.GetPointer address ≤ p ∧ p < mem.GetPointer address + 8 then
      (le32 0x03E00008 ++ le32 0x0000000C).getD (p - mem.GetPointer address) 0
    else mem.host p

/-- An environment that decrypts nothing, reads every image as
`demoReader mem` and patches call sites with `demoWriteSyscall`. -/
def demoEnv (mem : Option Memory) : Env :=
  { elf_size := fun b => b.u32 0x28
    psp_size := fun b => b.u32 0x2c
    pspDecryptPRX := fun b _ => b
    reader := fun _ => demoReader mem
    WriteSyscall := demoWriteSyscall
    AttemptLoadSymbolMap := false
    PSP_GetDefaultLoadAddress := 0x08804000
    SCE_KERNEL_ERROR_NOFILE := 0x8002012f
    SCE_KERNEL_ERROR_ILLEGAL_OBJECT := 0x800200d2 }

/-- A kernel with one live object and nothing recorded yet. -/
def demoKernel : Kernel :=
  { kernelObjects := ⟨[(7, Module.new)]⟩
    memory := memOfList []
    writeSyscalls := []
    resolveSyscalls := []
    symbolMap := []
    userMemoryFreed := [] }

/-- A buffer that starts with the ELF magic. -/
def elfBuffer : Bytes := Bytes.ofList [0x7f, 0x45, 0x4c, 0x46, 1, 1, 1, 0]


/-- A container: the magic, a version word and an offset table of 8 entries
(`offset0 = 40`), `table[i] = 100 * i` for `i > 0`. -/
def pbpBuffer : Bytes :=
  Bytes.ofList (pbpMagic ++ le32 0x00010000 ++ le32 40 ++ le32 100 ++ le32 200 ++ le32 300 ++
    le32 400 ++ le32 500 ++ le32 600 ++ le32 700)

/-- A file system in which every name is an existing file with the bytes
`content`. -/
def demoFS (content : List Nat) : FileSystem :=
  { GetFileInfo := fun _ => ⟨true, content.length⟩
    ReadFile := fun _ => Bytes.ofList content }

/-- An encrypted image: the magic `~PSP`, and a header whose `elf_size` (at
byte `0x28`) is `0x1000` and whose `psp_size` (at byte `0x2c`) is `0x1150`. -/
def pspBuffer : Bytes :=
  Bytes.ofList ([0x7e, 0x50, 0x53, 0x50] ++ List.replicate 36 0 ++ le32 0x1000 ++ le32 0x1150)

/-- A module-info header at host byte 0 with no export entry and one stub
entry at 52: two functions, the name `LibA` at 72, the nid array
`[0x11111111, 0x22222222]` at 80, and `firstSymAddr = 0x08800054`, so that
the first call-site slot (host bytes 84 to 91) lies over `nidData[1]`. -/
def overlapImage : List Nat :=
  le16 0 ++ le16 0x0101 ++ (cstr "demo" ++ List.replicate 24 0) ++ le32 0x08808000 ++
    le32 0x08800048 ++ le32 0x08800048 ++ le32 0x08800034 ++ le32 0x08800048 ++
  (le32 0x08800048 ++ le16 0x0011 ++ le16 0 ++ le16 5 ++ le16 2 ++ le32 0x08800050 ++ le32 0x08800054) ++
  cstr "LibA" ++ [0, 0, 0, 0] ++
  le32 0x11111111 ++ le32 0x22222222

/-! ## Loops as lists -/

theorem exportFuncs_eq_map (mem : Memory) (nm : CStr) (rp fc vc : Nat) (n j : Nat) :
    exportFuncs mem nm rp fc vc n j =
      (List.range n).map (fun t =>
        ⟨nm, mem.host.u32 (rp + 4 * (j + t)), mem.host.u32 (rp + 4 * (fc + vc + (j + t)))⟩) := by
  induction n generalizing j with
  | zero => rfl
  | succ n ih =>
    rw [exportFuncs, ih, List.range_succ_eq_map, List.map_cons, List.map_map]
    refine congrArg₂ _ rfl (List.map_congr_left ?_)
    intro t _
    simp only [Function.comp, Nat.add_assoc, Nat.add_comm 1 t]

theorem u8_lt (b : Bytes) (p : Nat) : b.u8 p < 256 := Nat.mod_lt _ (by decide)

theorem u16_lt (b : Bytes) (p : Nat) : b.u16 p < 65536 := by
  have h1 := u8_lt b p
  have h2 := u8_lt b (p + 1)
  unfold Bytes.u16
  omega

theorem u32_lt (b : Bytes) (p : Nat) : b.u32 p < 2 ^ 32 := by
  have h1 := u16_lt b p
  have h2 := u16_lt b (p + 2)
  unfold Bytes.u32
  omega

theorem u32sub_eq (b : Bytes) (p q : Nat) :
    u32sub (b.u32 p) (b.u32 q) = (b.u32 p + 2 ^ 32 - b.u32 q) % 2 ^ 32 := by
  unfold u32sub
  rw [Nat.mod_eq_of_lt (u32_lt b q)]


theorem importFuncs_fuel (env : Env) (modulename : CStr) (nidDataPtr e : Nat) (fuel i : Nat)
    (mem : Memory) (hfuel : 65536 ≤ fuel + i) :
    importFuncs env modulename nidDataPtr e (fuel + 1) i mem =
      importFuncs env modulename nidDataPtr e fuel i mem := by
  induction fuel generalizing i mem with
  | zero =>
    have hlt : (PspLibStubEntry.at mem e).numFuncs < 65536 := u16_lt _ _
    have hn : ¬ i < (PspLibStubEntry.at mem e).numFuncs := by omega
    conv_lhs => rw [importFuncs, if_neg hn]
    rfl
  | succ fuel ih =>
    conv_lhs => rw [importFuncs]
    conv_rhs => rw [importFuncs]
    by_cases hi : i < (PspLibStubEntry.at mem e).numFuncs
    · simp only [if_pos hi]
      rw [ih (i + 1) _ (by omega)]
    · simp only [if_neg hi]

/-! ## The kernel-object table -/

namespace KernelObjectPool

theorem le_foldr_max (l : List Nat) (x : Nat) (h : x ∈ l) : x ≤ l.foldr max 0 := by
  induction l with
  | nil => cases h
  | cons a t ih =>
    rcases List.mem_cons.mp h with h | h
    · subst h
      exact Nat.le_max_left _ _
    · exact Nat.le_trans (ih h) (Nat.le_max_right _ _)

theorem freshUID_not_mem (p : KernelObjectPool) : p.freshUID ∉ p.uids := by
  intro h
  have := le_foldr_max p.uids p.freshUID h
  unfold freshUID at this
  omega

theorem filter_ne_of_not_mem (l : List (Nat × Module)) (uid : Nat)
    (h : uid ∉ l.map Prod.fst) : l.filter (fun e => !(e.1 == uid)) = l := by
  rw [List.filter_eq_self]
  intro e he
  have hne : e.1 ≠ uid := by
    intro heq
    exact h (heq ▸ List.mem_map_of_mem Prod.fst he)
  simp [hne]

theorem Get_Create (p : KernelObjectPool) (m : Module) :
    (p.Create m).2.Get (p.Create m).1 = some m := by
  simp [Create, Get]

theorem Destroy_Create (p : KernelObjectPool) (m : Module) :
    (p.Create m).2.Destroy (p.Create m).1 = p := by
  cases p with
  | mk objs =>
    simp only [Create, Destroy, List.filter_cons, beq_self_eq_true, Bool.not_true]
    simp only [Bool.false_eq_true, if_false]
    exact congrArg KernelObjectPool.mk
      (filter_ne_of_not_mem objs _ (freshUID_not_mem ⟨objs⟩))

theorem modify_Create (p : KernelObjectPool) (m : Module) (f : Module → Module) :
    (p.Create m).2.modify (p.Create m).1 f = (p.Create (f m)).2 := by
  cases p with
  | mk objs =>
    simp only [Create, modify, List.map_cons, beq_self_eq_true, if_true]
    refine congrArg KernelObjectPool.mk (congrArg₂ _ rfl ?_)
    have h := freshUID_not_mem ⟨objs⟩
    conv_rhs => rw [← List.map_id objs]
    refine List.map_congr_left ?_
    intro e he
    have hne : e.1 ≠ KernelObjectPool.freshUID ⟨objs⟩ := by
      intro heq
      exact h (heq ▸ List.mem_map_of_mem Prod.fst he)
    simp [hne]

end KernelObjectPool

/-! ## The exits of __KernelLoadELFFromPtr -/

theorem destroy_created (k : Kernel) (m : Module) (mem : Memory) :
    Kernel.Destroy
        { k with kernelObjects := (k.kernelObjects.Create m).2, memory := mem }
        (k.kernelObjects.Create m).1 =
      { k with
        memory := mem
        userMemoryFreed :=
          if m.memoryBlockAddr ≠ 0 then k.userMemoryFreed ++ [m.memoryBlockAddr]
          else k.userMemoryFreed } := by
  simp only [Kernel.Destroy, KernelObjectPool.Get_Create, KernelObjectPool.Destroy_Create]

theorem destroy_new (k : Kernel) :
    Kernel.Destroy { k with kernelObjects := (k.kernelObjects.Create Module.new).2 }
      (k.kernelObjects.Create Module.new).1 = k := by
  have h := destroy_created k Module.new k.memory
  simpa [Module.new] using h

theorem load_kernel_signed (env : Env) (ptr : Bytes) (loadAddress : Nat) (error_string : String)
    (k : Kernel) (h : (decryptGate env ptr).1.u32 0 = 0x4543537e) :
    __KernelLoadELFFromPtr env ptr loadAddress error_string k = ⟨none, "Kernel module?", k⟩ := by
  simp only [__KernelLoadELFFromPtr, h, if_true, destroy_new]

theorem load_corrupt (env : Env) (ptr : Bytes) (loadAddress : Nat) (error_string : String)
    (k : Kernel) (h1 : (decryptGate env ptr).1.u32 0 ≠ 0x4543537e)
    (h2 : (decryptGate env ptr).1.u32 0 ≠ 0x464c457f) :
    __KernelLoadELFFromPtr env ptr loadAddress error_string k = ⟨none, "File corrupt", k⟩ := by
  simp only [__KernelLoadELFFromPtr, h1, h2, if_false, ne_eq, not_false_eq_true, if_true,
    destroy_new]

theorem load_map_failed (env : Env) (ptr : Bytes) (loadAddress : Nat) (error_string : String)
    (k : Kernel) (h : (decryptGate env ptr).1.u32 0 = 0x464c457f)
    (hload : (env.reader (decryptGate env ptr).1).LoadInto loadAddress k.memory = none) :
    __KernelLoadELFFromPtr env ptr loadAddress error_string k = ⟨none, error_string, k⟩ := by
  simp [__KernelLoadELFFromPtr, h, hload, destroy_new]

theorem load_blacklisted (env : Env) (ptr : Bytes) (loadAddress : Nat) (error_string : String)
    (k : Kernel) (mem : Memory) (h : (decryptGate env ptr).1.u32 0 = 0x464c457f)
    (hload : (env.reader (decryptGate env ptr).1).LoadInto loadAddress k.memory = some mem)
    (hbl : isBlacklisted mem (modinfoPtr (env.reader (decryptGate env ptr).1) mem) = true) :
    __KernelLoadELFFromPtr env ptr loadAddress error_string k =
      ⟨none, "Blacklisted",
        { k with
          memory := mem
          userMemoryFreed :=
            if (env.reader (decryptGate env ptr).1).GetVaddr ≠ 0 then
              k.userMemoryFreed ++ [(env.reader (decryptGate env ptr).1).GetVaddr]
            else k.userMemoryFreed }⟩ := by
  have hd := destroy_created k
    { Module.new with memoryBlockAddr := (env.reader (decryptGate env ptr).1).GetVaddr } mem
  simp only [__KernelLoadELFFromPtr, h, hload, hbl, if_true, KernelObjectPool.modify_Create]
  simp only [Nat.reduceEqDiff, if_false, ne_eq, not_true_eq_false]
  exact congrArg _ hd

theorem load_linked (env : Env) (ptr : Bytes) (loadAddress : Nat) (error_string : String)
    (k : Kernel) (mem : Memory) (h : (decryptGate env ptr).1.u32 0 = 0x464c457f)
    (hload : (env.reader (decryptGate env ptr).1).LoadInto loadAddress k.memory = some mem)
    (hbl : isBlacklisted mem (modinfoPtr (env.reader (decryptGate env ptr).1) mem) = false) :
    __KernelLoadELFFromPtr env ptr loadAddress error_string k =
      linkModule env (env.reader (decryptGate env ptr).1) k.kernelObjects.freshUID error_string
        { k with
          memory := mem
          kernelObjects :=
            (k.kernelObjects.Create
              { Module.new with memoryBlockAddr := (env.reader (decryptGate env ptr).1).GetVaddr }).2 } := by
  simp only [__KernelLoadELFFromPtr, h, hload, hbl, KernelObjectPool.modify_Create]
  simp only [Nat.reduceEqDiff, if_false, ne_eq, not_true_eq_false, Bool.false_eq_true]
  rfl


/-! ## The import stage on a table that the patches leave alone -/

theorem u16_congr (h g : Bytes) (a : Nat) (H : ∀ o, o < 2 → h.u8 (a + o) = g.u8 (a + o)) :
    h.u16 a = g.u16 a := by
  have h0 := H 0 (by omega)
  have h1 := H 1 (by omega)
  simp only [Nat.add_zero] at h0
  unfold Bytes.u16
  rw [h0, h1]

theorem u32_congr (h g : Bytes) (a : Nat) (H : ∀ o, o < 4 → h.u8 (a + o) = g.u8 (a + o)) :
    h.u32 a = g.u32 a := by
  unfold Bytes.u32
  rw [u16_congr h g a (fun o ho => H o (by omega)),
    u16_congr h g (a + 2) (fun o ho => by
      have := H (2 + o) (by omega)
      rwa [← Nat.add_assoc] at this)]

theorem stub_entry_kept (mem : Memory) (modinfo : Nat) (h : Bytes)
    (hk : KeepsImportTable mem modinfo h) (m : Nat)
    (hm : m < numModules (PspModuleInfo.at mem modinfo)) :
    PspLibStubEntry.at ⟨mem.GetPointer, h⟩
        (mem.GetPointer (PspModuleInfo.at mem modinfo).libstub + 20 * m) =
      PspLibStubEntry.at mem (mem.GetPointer (PspModuleInfo.at mem modinfo).libstub + 20 * m) := by
  have hb : ∀ o, o < 20 →
      h.u8 (mem.GetPointer (PspModuleInfo.at mem modinfo).libstub + 20 * m + o) =
        mem.host.u8 (mem.GetPointer (PspModuleInfo.at mem modinfo).libstub + 20 * m + o) :=
    fun o ho => hk _ (Or.inl ⟨m, hm, by omega, by omega⟩)
  unfold PspLibStubEntry.at
  congr 1
  · exact u32_congr _ _ _ (fun o ho => hb o (by omega))
  · exact u16_congr _ _ _ (fun o ho => by
      have := hb (10 + o) (by omega)
      rwa [← Nat.add_assoc] at this)
  · exact u32_congr _ _ _ (fun o ho => by
      have := hb (12 + o) (by omega)
      rwa [← Nat.add_assoc] at this)
  · exact u32_congr _ _ _ (fun o ho => by
      have := hb (16 + o) (by omega)
      rwa [← Nat.add_assoc] at this)

theorem nid_kept (mem : Memory) (modinfo : Nat) (h : Bytes)
    (hk : KeepsImportTable mem modinfo h) (m i : Nat)
    (hm : m < numModules (PspModuleInfo.at mem modinfo))
    (hi : i < (PspLibStubEntry.at mem
      (mem.GetPointer (PspModuleInfo.at mem modinfo).libstub + 20 * m)).numFuncs) :
    h.u32 (mem.GetPointer (PspLibStubEntry.at mem
        (mem.GetPointer (PspModuleInfo.at mem modinfo).libstub + 20 * m)).nidData + 4 * i) =
      mem.host.u32 (mem.GetPointer (PspLibStubEntry.at mem
        (mem.GetPointer (PspModuleInfo.at mem modinfo).libstub + 20 * m)).nidData + 4 * i) :=
  u32_congr _ _ _ (fun o ho => hk _ (Or.inr ⟨m, i, hm, hi, by omega, by omega⟩))

theorem importFuncs_kept (env : Env) (mem : Memory) (modinfo m : Nat)
    (hm : m < numModules (PspModuleInfo.at mem modinfo))
    (hframe : ∀ (h : Bytes) (name : CStr) (nid i p : Nat),
      i < (stubEntry mem modinfo m).numFuncs → importTableByte mem modinfo p →
      (env.WriteSyscall ⟨mem.GetPointer, h⟩ name nid
        (u32add (stubEntry mem modinfo m).firstSymAddr (i * 8))).u8 p = h.u8 p)
    (fuel i : Nat) (h : Bytes) (hk : KeepsImportTable mem modinfo h)
    (hfuel : (stubEntry mem modinfo m).numFuncs < fuel + i) :
    ∃ h2, KeepsImportTable mem modinfo h2 ∧
      (importFuncs env (CStr.guest (mem.GetPointer (stubEntry mem modinfo m).name))
        (mem.GetPointer (stubEntry mem modinfo m).nidData)
        (mem.GetPointer (PspModuleInfo.at mem modinfo).libstub + 20 * m) fuel i
        ⟨mem.GetPointer, h⟩).2 = ⟨mem.GetPointer, h2⟩ ∧
      (importFuncs env (CStr.guest (mem.GetPointer (stubEntry mem modinfo m).name))
        (mem.GetPointer (stubEntry mem modinfo m).nidData)
        (mem.GetPointer (PspModuleInfo.at mem modinfo).libstub + 20 * m) fuel i
        ⟨mem.GetPointer, h⟩).1.map (fun f => f.call) =
        (List.range ((stubEntry mem modinfo m).numFuncs - i)).map
          (fun t => tableCall mem modinfo m (i + t)) := by
  induction fuel generalizing i h with
  | zero =>
    refine ⟨h, hk, rfl, ?_⟩
    have : (stubEntry mem modinfo m).numFuncs - i = 0 := by omega
    rw [this]
    rfl
  | succ fuel ih =>
    have he : PspLibStubEntry.at ⟨mem.GetPointer, h⟩
        (mem.GetPointer (PspModuleInfo.at mem modinfo).libstub + 20 * m) =
          stubEntry mem modinfo m := stub_entry_kept mem modinfo h hk m hm
    by_cases hi : i < (stubEntry mem modinfo m).numFuncs
    · have hi2 : i < (PspLibStubEntry.at ⟨mem.GetPointer, h⟩
          (mem.GetPointer (PspModuleInfo.at mem modinfo).libstub + 20 * m)).numFuncs := by
        rw [he]
        exact hi
      have hnid : h.u32 (mem.GetPointer (stubEntry mem modinfo m).nidData + 4 * i) =
          mem.host.u32 (mem.GetPointer (stubEntry mem modinfo m).nidData + 4 * i) :=
        nid_kept mem modinfo h hk m i hm hi
      have hk1 : KeepsImportTable mem modinfo
          (env.WriteSyscall ⟨mem.GetPointer, h⟩
            (CStr.guest (mem.GetPointer (stubEntry mem modinfo m).name))
            (mem.host.u32 (mem.GetPointer (stubEntry mem modinfo m).nidData + 4 * i))
            (u32add (stubEntry mem modinfo m).firstSymAddr (i * 8))) :=
        fun p hp => (hframe h _ _ i p hi hp).trans (hk p hp)
      obtain ⟨h2, hk2, hmem, hcalls⟩ := ih (i + 1) _ hk1 (by omega)
      refine ⟨h2, hk2, ?_, ?_⟩
      · rw [importFuncs, if_pos hi2]
        simp only [Memory.patched, he, hnid]
        exact hmem
      · rw [importFuncs, if_pos hi2]
        simp only [Memory.patched, he, hnid, List.map_cons]
        have hn : (stubEntry mem modinfo m).numFuncs - i =
            ((stubEntry mem modinfo m).numFuncs - (i + 1)) + 1 := by omega
        rw [hn, List.range_succ_eq_map, List.map_cons, List.map_map]
        refine congrArg₂ _ rfl ?_
        refine hcalls.trans (List.map_congr_left ?_)
        intro t _
        simp only [Function.comp, Nat.add_assoc, Nat.add_comm 1 t]
    · have hi2 : ¬ i < (PspLibStubEntry.at ⟨mem.GetPointer, h⟩
          (mem.GetPointer (PspModuleInfo.at mem modinfo).libstub + 20 * m)).numFuncs := by
        rw [he]
        exact hi
      refine ⟨h, hk, ?_, ?_⟩
      · rw [importFuncs, if_neg hi2]
      · rw [importFuncs, if_neg hi2]
        have : (stubEntry mem modinfo m).numFuncs - i = 0 := by omega
        rw [this]
        rfl

theorem importGroup_kept (env : Env) (mem : Memory) (modinfo m : Nat)
    (hm : m < numModules (PspModuleInfo.at mem modinfo))
    (hframe : ∀ (h : Bytes) (name : CStr) (nid i p : Nat),
      i < (stubEntry mem modinfo m).numFuncs → importTableByte mem modinfo p →
      (env.WriteSyscall ⟨mem.GetPointer, h⟩ name nid
        (u32add (stubEntry mem modinfo m).firstSymAddr (i * 8))).u8 p = h.u8 p)
    (h : Bytes) (hk : KeepsImportTable mem modinfo h) :
    ∃ h2, KeepsImportTable mem modinfo h2 ∧
      (importGroup env ⟨mem.GetPointer, h⟩
        (mem.GetPointer (PspModuleInfo.at mem modinfo).libstub + 20 * m)).2 =
          ⟨mem.GetPointer, h2⟩ ∧
      (importGroup env ⟨mem.GetPointer, h⟩
        (mem.GetPointer (PspModuleInfo.at mem modinfo).libstub + 20 * m)).1.map (fun f => f.call) =
        (List.range (stubEntry mem modinfo m).numFuncs).map
          (fun i => tableCall mem modinfo m i) := by
  have he : PspLibStubEntry.at ⟨mem.GetPointer, h⟩
      (mem.GetPointer (PspModuleInfo.at mem modinfo).libstub + 20 * m) =
        stubEntry mem modinfo m := stub_entry_kept mem modinfo h hk m hm
  have hlt : (stubEntry mem modinfo m).numFuncs < 65536 + 0 := u16_lt _ _
  obtain ⟨h2, hk2, hmem, hcalls⟩ := importFuncs_kept env mem modinfo m hm hframe 65536 0 h hk hlt
  refine ⟨h2, hk2, ?_, ?_⟩
  · simp only [importGroup, he]
    exact hmem
  · simp only [importGroup, he]
    refine hcalls.trans ?_
    simp only [Nat.sub_zero, Nat.zero_add]

theorem importLoop_kept (env : Env) (mem : Memory) (modinfo : Nat)
    (hframe : ∀ (h : Bytes) (name : CStr) (nid m i p : Nat),
      m < numModules (PspModuleInfo.at mem modinfo) →
      i < (stubEntry mem modinfo m).numFuncs → importTableByte mem modinfo p →
      (env.WriteSyscall ⟨mem.GetPointer, h⟩ name nid
        (u32add (stubEntry mem modinfo m).firstSymAddr (i * 8))).u8 p = h.u8 p)
    (n m : Nat) (hn : m + n ≤ numModules (PspModuleInfo.at mem modinfo))
    (h : Bytes) (hk : KeepsImportTable mem modinfo h) :
    ∃ h2, KeepsImportTable mem modinfo h2 ∧
      (importLoop env (mem.GetPointer (PspModuleInfo.at mem modinfo).libstub) n m
        ⟨mem.GetPointer, h⟩).2 = ⟨mem.GetPointer, h2⟩ ∧
      (importLoop env (mem.GetPointer (PspModuleInfo.at mem modinfo).libstub) n m
        ⟨mem.GetPointer, h⟩).1.map (fun g => g.map (fun f => f.call)) =
        (List.range n).map (fun t =>
          (List.range (stubEntry mem modinfo (m + t)).numFuncs).map
            (fun i => tableCall mem modinfo (m + t) i)) := by
  induction n generalizing m h with
  | zero => exact ⟨h, hk, rfl, rfl⟩
  | succ n ih =>
    have hm : m < numModules (PspModuleInfo.at mem modinfo) := by omega
    obtain ⟨h1, hk1, hmem1, hcalls1⟩ := importGroup_kept env mem modinfo m hm
      (fun h name nid i p hi hp => hframe h name nid m i p hm hi hp) h hk
    obtain ⟨h2, hk2, hmem2, hcalls2⟩ := ih (m + 1) (by omega) h1 hk1
    refine ⟨h2, hk2, ?_, ?_⟩
    · rw [importLoop]
      simp only [hmem1]
      exact hmem2
    · rw [importLoop]
      simp only [hmem1, List.map_cons, hcalls1]
      rw [List.range_succ_eq_map, List.map_cons, List.map_map]
      refine congrArg₂ _ rfl ?_
      refine hcalls2.trans (List.map_congr_left ?_)
      intro t _
      simp only [Function.comp, Nat.add_assoc, Nat.add_comm 1 t]

/-! ## C1: the import stubs -/

/-- C1 as stated fails: in `overlapImage` the one stub entry has
`numFuncs = 2`, `nidData = [0x11111111, 0x22222222]` and a first call-site
slot that starts at host byte 84, where `nidData[1]` is.  The load succeeds;
the first `WriteSyscall` patches that slot, so the second call is made with
the patched word `0x03E00008` and the call for the pair `(0, 1)` with
`nidData[1] = 0x22222222` is never made. -/
theorem overlapping_slot_changes_nid :
    numModules (PspModuleInfo.at (memOfList overlapImage) 0) = 1 ∧
    (stubEntry (memOfList overlapImage) 0 0).numFuncs = 2 ∧
    tableCall (memOfList overlapImage) 0 0 0 = ⟨CStr.guest 72, 0x11111111, 0x08800054⟩ ∧
    tableCall (memOfList overlapImage) 0 0 1 = ⟨CStr.guest 72, 0x22222222, 0x0880005c⟩ ∧
    (memOfList overlapImage).GetPointer (tableCall (memOfList overlapImage) 0 0 0).address = 84 ∧
    (memOfList overlapImage).GetPointer (stubEntry (memOfList overlapImage) 0 0).nidData + 4 * 1 =
      84 ∧
    (__KernelLoadELFFromPtr (demoEnv (some (memOfList overlapImage))) elfBuffer 0 ""
        demoKernel).module = some 8 ∧
    (__KernelLoadELFFromPtr (demoEnv (some (memOfList overlapImage))) elfBuffer 0 ""
        demoKernel).kernel.writeSyscalls =
      [⟨CStr.guest 72, 0x11111111, 0x08800054⟩, ⟨CStr.guest 72, 0x03E00008, 0x0880005c⟩] ∧
    (⟨CStr.guest 72, 0x22222222, 0x0880005c⟩ : SyscallRef) ∉
      (__KernelLoadELFFromPtr (demoEnv (some (memOfList overlapImage))) elfBuffer 0 ""
        demoKernel).kernel.writeSyscalls := by
  decide

/-- C1, amended: once the image is mapped and its name is not blacklisted,
and provided the patches `WriteSyscall` makes at the call-site slots of the
table leave the bytes of the stub entries and of the nid arrays as they were
(the slots overlap neither), `__KernelLoadELFFromPtr` issues exactly one
`WriteSyscall` for each pair `(m, i)` with `m < numModules` and
`i < entry[m].numFuncs`, in order of `m` then `i`, with the arguments (name
of group `m`, `nidData_m[i]`, `entry[m].firstSymAddr + 8*i` as a `u32`);
their number is the sum of the `numFuncs` fields, and the load returns a
module. -/
theorem import_stubs_patched (env : Env) (ptr : Bytes) (loadAddress : Nat) (error_string : String)
    (k : Kernel) (mem : Memory) (hmagic : (decryptGate env ptr).1.u32 0 = 0x464c457f)
    (hload : (env.reader (decryptGate env ptr).1).LoadInto loadAddress k.memory = some mem)
    (hbl : isBlacklisted mem (modinfoPtr (env.reader (decryptGate env ptr).1) mem) = false)
    (hframe : ∀ (h : Bytes) (name : CStr) (nid m i p : Nat),
      m < numModules (PspModuleInfo.at mem (modinfoPtr (env.reader (decryptGate env ptr).1) mem)) →
      i < (PspLibStubEntry.at mem (mem.GetPointer (PspModuleInfo.at mem
        (modinfoPtr (env.reader (decryptGate env ptr).1) mem)).libstub + 20 * m)).numFuncs →
      importTableByte mem (modinfoPtr (env.reader (decryptGate env ptr).1) mem) p →
      (env.WriteSyscall ⟨mem.GetPointer, h⟩ name nid
        (((PspLibStubEntry.at mem (mem.GetPointer (PspModuleInfo.at mem
          (modinfoPtr (env.reader (decryptGate env ptr).1) mem)).libstub + 20 * m)).firstSymAddr +
            8 * i) % 2 ^ 32)).u8 p = h.u8 p) :
    let r := __KernelLoadELFFromPtr env ptr loadAddress error_string k
    let mi := PspModuleInfo.at mem (modinfoPtr (env.reader (decryptGate env ptr).1) mem)
    let entry := fun m => PspLibStubEntry.at mem (mem.GetPointer mi.libstub + 20 * m)
    r.kernel.writeSyscalls = k.writeSyscalls ++
        ((List.range (numModules mi)).map (fun m =>
          (List.range (entry m).numFuncs).map (fun i =>
            (⟨CStr.guest (mem.GetPointer (entry m).name),
              mem.host.u32 (mem.GetPointer (entry m).nidData + 4 * i),
              ((entry m).firstSymAddr + 8 * i) % 2 ^ 32⟩ : SyscallRef)))).flatten ∧
      r.kernel.writeSyscalls.length =
        k.writeSyscalls.length + ((List.range (numModules mi)).map (fun m => (entry m).numFuncs)).sum ∧
      r.module.isSome = true := by
  intro r mi entry
  have hr : r = _ := load_linked env ptr loadAddress error_string k mem hmagic hload hbl
  have hframe2 : ∀ (h : Bytes) (name : CStr) (nid m i p : Nat),
      m < numModules (PspModuleInfo.at mem (modinfoPtr (env.reader (decryptGate env ptr).1) mem)) →
      i < (stubEntry mem (modinfoPtr (env.reader (decryptGate env ptr).1) mem) m).numFuncs →
      importTableByte mem (modinfoPtr (env.reader (decryptGate env ptr).1) mem) p →
      (env.WriteSyscall ⟨mem.GetPointer, h⟩ name nid
        (u32add (stubEntry mem (modinfoPtr (env.reader (decryptGate env ptr).1) mem) m).firstSymAddr
          (i * 8))).u8 p = h.u8 p := by
    intro h name nid m i p hm hi hp
    have := hframe h name nid m i p hm hi hp
    rwa [Nat.mul_comm 8 i] at this
  obtain ⟨h2, _, _, hcalls⟩ := importLoop_kept env mem
    (modinfoPtr (env.reader (decryptGate env ptr).1) mem) hframe2
    (numModules mi) 0 (Nat.le_of_eq (Nat.zero_add _)) mem.host (fun _ _ => rfl)
  have h1 : r.kernel.writeSyscalls = k.writeSyscalls ++
        ((List.range (numModules mi)).map (fun m =>
          (List.range (entry m).numFuncs).map (fun i =>
            (⟨CStr.guest (mem.GetPointer (entry m).name),
              mem.host.u32 (mem.GetPointer (entry m).nidData + 4 * i),
              ((entry m).firstSymAddr + 8 * i) % 2 ^ 32⟩ : SyscallRef)))).flatten := by
    rw [hr]
    show k.writeSyscalls ++ ((importGroups env mem _).1.flatten.map (fun f => f.call)) = _
    rw [List.map_flatten]
    refine congrArg₂ _ rfl (congrArg _ ?_)
    refine Eq.trans hcalls ?_
    refine List.map_congr_left ?_
    intro m _
    simp only [tableCall, stubEntry, u32add, Nat.zero_add, Nat.mul_comm _ 8]
  refine ⟨h1, ?_, ?_⟩
  · rw [h1, List.length_append, List.length_flatten, List.map_map]
    refine congrArg _ (congrArg _ (List.map_congr_left ?_))
    intro m _
    simp
  · rw [hr]
    rfl

theorem demo_patches_keep_table (h : Bytes) (name : CStr) (nid m i p : Nat)
    (hm : m < numModules (PspModuleInfo.at (memOfList (demoImage (cstr "demo") 4)) 0))
    (hi : i < (PspLibStubEntry.at (memOfList (demoImage (cstr "demo") 4))
      ((memOfList (demoImage (cstr "demo") 4)).GetPointer
        (PspModuleInfo.at (memOfList (demoImage (cstr "demo") 4)) 0).libstub + 20 * m)).numFuncs)
    (hp : importTableByte (memOfList (demoImage (cstr "demo") 4)) 0 p) :
    (demoWriteSyscall ⟨(memOfList (demoImage (cstr "demo") 4)).GetPointer, h⟩ name nid
      (((PspLibStubEntry.at (memOfList (demoImage (cstr "demo") 4))
        ((memOfList (demoImage (cstr "demo") 4)).GetPointer
          (PspModuleInfo.at (memOfList (demoImage (cstr "demo") 4)) 0).libstub + 20 * m)).firstSymAddr +
            8 * i) % 2 ^ 32)).u8 p = h.u8 p := by
  have hN : numModules (PspModuleInfo.at (memOfList (demoImage (cstr "demo") 4)) 0) = 2 := by
    decide
  have hE : (memOfList (demoImage (cstr "demo") 4)).GetPointer
      (PspModuleInfo.at (memOfList (demoImage (cstr "demo") 4)) 0).libstub = 52 := by decide
  have hT : ∀ m, m < 2 →
      (PspLibStubEntry.at (memOfList (demoImage (cstr "demo") 4)) (52 + 20 * m)).numFuncs ≤ 2 ∧
      (memOfList (demoImage (cstr "demo") 4)).GetPointer
        (PspLibStubEntry.at (memOfList (demoImage (cstr "demo") 4)) (52 + 20 * m)).nidData ≤ 140 ∧
      ∀ i, i < 2 → 512 ≤ (memOfList (demoImage (cstr "demo") 4)).GetPointer
        (((PspLibStubEntry.at (memOfList (demoImage (cstr "demo") 4))
          (52 + 20 * m)).firstSymAddr + 8 * i) % 2 ^ 32) := by
    decide
  rw [hN] at hm
  rw [hE] at hi ⊢
  have hp160 : p < 160 := by
    unfold importTableByte at hp
    rw [hN, hE] at hp
    rcases hp with ⟨m2, hm2, _, hlt⟩ | ⟨m2, i2, hm2, hi2, _, hlt⟩
    · omega
    · have := hT m2 hm2
      omega
  have hslot := (hT m hm).2.2 i (by have := (hT m hm).1; omega)
  unfold demoWriteSyscall Bytes.u8
  dsimp only
  rw [if_neg (by omega)]

/-- Witness for the amended C1 on the demo image: the call-site slots start
at host byte 512, beyond the table, and the two import groups with 2 and 1
functions give three patches. -/
theorem import_stubs_patched_witness :
    (decryptGate (demoEnv (some (memOfList (demoImage (cstr "demo") 4)))) elfBuffer).1.u32 0 = 0x464c457f ∧
    (demoReader (some (memOfList (demoImage (cstr "demo") 4)))).LoadInto 0 demoKernel.memory =
      some (memOfList (demoImage (cstr "demo") 4)) ∧
    isBlacklisted (memOfList (demoImage (cstr "demo") 4))
      (modinfoPtr (demoReader (some (memOfList (demoImage (cstr "demo") 4))))
        (memOfList (demoImage (cstr "demo") 4))) = false ∧
    (__KernelLoadELFFromPtr (demoEnv (some (memOfList (demoImage (cstr "demo") 4)))) elfBuffer 0 ""
        demoKernel).kernel.writeSyscalls =
      [⟨CStr.guest 124, 0x11111111, 0x08800200⟩, ⟨CStr.guest 124, 0x22222222, 0x08800208⟩,
        ⟨CStr.guest 124, 0x33333333, 0x08800210⟩] ∧
    (__KernelLoadELFFromPtr (demoEnv (some (memOfList (demoImage (cstr "demo") 4)))) elfBuffer 0 ""
        demoKernel).kernel.writeSyscalls.length = 0 + (2 + 1) :=
  have h := import_stubs_patched (demoEnv (some (memOfList (demoImage (cstr "demo") 4)))) elfBuffer 0 ""
    demoKernel (memOfList (demoImage (cstr "demo") 4)) (by decide) rfl (by decide)
    demo_patches_keep_table
  ⟨by decide, rfl, by decide, h.1.trans (by decide), h.2.1.trans (by decide)⟩

/-! ## The export walk -/

theorem exportLoop_length (mem : Memory) (nm : Option (List Nat)) (n ent : Nat) :
    (exportLoop mem nm n ent).length = n := by
  induction n generalizing ent with
  | zero => rfl
  | succ n ih =>
    rw [exportLoop]
    split <;> simp [ih]

theorem exportLoop_getElem? (mem : Memory) (nm : Option (List Nat)) (n ent t : Nat) (ht : t < n) :
    (exportLoop mem nm n ent)[t]? =
      some (if (PspLibEntEntry.at mem (entAt mem t ent)).size = 0 then []
        else exportEntry mem nm (entAt mem t ent)) := by
  induction n generalizing ent t with
  | zero => omega
  | succ n ih =>
    rw [exportLoop]
    cases t with
    | zero =>
      by_cases h : (PspLibEntEntry.at mem ent).size = 0 <;> simp [h, entAt]
    | succ t =>
      have ht2 : t < n := by omega
      by_cases h : (PspLibEntEntry.at mem ent).size = 0
      · simp only [h, if_true, List.getElem?_cons_succ, entAt]
        exact ih ent t ht2
      · simp only [h, if_false, List.getElem?_cons_succ, entAt]
        exact ih (nextEnt mem ent) t ht2

theorem exportEntry_eq_map (mem : Memory) (nm : Option (List Nat)) (ent : Nat) :
    exportEntry mem nm ent =
      (List.range (PspLibEntEntry.at mem ent).fcount).map (fun j =>
        (⟨if (PspLibEntEntry.at mem ent).name = 0 then CStr.nmName nm
            else CStr.guest (mem.GetPointer (PspLibEntEntry.at mem ent).name),
          mem.host.u32 (mem.GetPointer (PspLibEntEntry.at mem ent).resident + 4 * j),
          mem.host.u32 (mem.GetPointer (PspLibEntEntry.at mem ent).resident +
            4 * ((PspLibEntEntry.at mem ent).fcount + (PspLibEntEntry.at mem ent).vcount + j))⟩ :
          SyscallRef)) := by
  simp only [exportEntry, exportFuncs_eq_map, Nat.zero_add]

theorem exportLoop_stalls (mem : Memory) (nm : Option (List Nat)) (n ent : Nat)
    (h : (PspLibEntEntry.at mem ent).size = 0) :
    exportLoop mem nm n ent = List.replicate n [] := by
  induction n with
  | zero => rfl
  | succ n ih => rw [exportLoop, if_pos h, ih, List.replicate_succ]


/-! ## The module left by a load that reaches the link stage -/

theorem modify_Create_fresh (p : KernelObjectPool) (m : Module) (f : Module → Module) :
    (p.Create m).2.modify p.freshUID f = (p.Create (f m)).2 :=
  KernelObjectPool.modify_Create p m f

theorem Get_Create_fresh (p : KernelObjectPool) (m : Module) :
    (p.Create m).2.Get p.freshUID = some m :=
  KernelObjectPool.Get_Create p m

theorem linkModule_Get (env : Env) (reader : ElfReader) (error_string : String) (k : Kernel)
    (m0 : Module) (mem : Memory) :
    (linkModule env reader k.kernelObjects.freshUID error_string
        { k with memory := mem, kernelObjects := (k.kernelObjects.Create m0).2 }).kernel.kernelObjects.Get
        k.kernelObjects.freshUID =
      some
        { nm :=
            { name := some (strncpy mem.host (modinfoPtr reader mem + 4) 28)
              entry_addr := some reader.GetEntryPoint
              gp_value := some (mem.host.u32 (modinfoPtr reader mem + 32)) }
          memoryBlockAddr := m0.memoryBlockAddr } := by
  simp only [linkModule, modify_Create_fresh, Get_Create_fresh, PspModuleInfo.at]


/-! ## C2: an export entry of record size 0 -/

/-- C2, the code at the failing input: the export table of the demo image
holds an entry of size 0 at host byte 92 followed by an entry of size 4 with
one function at 108; the walk never leaves the first entry, and the load
passes nothing to `ResolveSyscall`, while the second entry on its own
exports one function. -/
theorem zero_size_entry_stalls_walk :
    (PspLibEntEntry.at (memOfList (demoImage (cstr "demo") 0)) 92).size = 0 ∧
    (PspLibEntEntry.at (memOfList (demoImage (cstr "demo") 0)) 108).size = 4 ∧
    (PspLibEntEntry.at (memOfList (demoImage (cstr "demo") 0)) 108).fcount = 1 ∧
    numEnts (PspModuleInfo.at (memOfList (demoImage (cstr "demo") 0)) 0) = 2 ∧
    entAt (memOfList (demoImage (cstr "demo") 0)) 1 92 = 92 ∧
    exportEntry (memOfList (demoImage (cstr "demo") 0)) none 108 =
      [⟨CStr.nmName none, 0xAAAA0001, 0x08804000⟩] ∧
    (__KernelLoadELFFromPtr (demoEnv (some (memOfList (demoImage (cstr "demo") 0)))) elfBuffer 0 ""
        demoKernel).module = some 8 ∧
    (__KernelLoadELFFromPtr (demoEnv (some (memOfList (demoImage (cstr "demo") 0)))) elfBuffer 0 ""
        demoKernel).kernel.resolveSyscalls = [] := by
  decide

/-! ## C3: the functions of an export entry -/

/-- C3, the code at the failing input: in the demo image with a first export
entry of record size 0, the second entry (host byte 108, inside the export
table that runs from 92 to 124) has record size 4, `fcount = 1`,
`vcount = 1`, name pointer 0 and the resident table
`[0xAAAA0001, 0xBBBB0002, 0x08804000, 0x08805000]`, and the module's stored
name is `demo`; yet the call
`ResolveSyscall(module->nm.name, resident[0], resident[fcount + vcount + 0])`
is not among the calls of the load. -/
theorem export_entry_behind_zero_size_unresolved :
    (__KernelLoadELFFromPtr (demoEnv (some (memOfList (demoImage (cstr "demo") 0)))) elfBuffer 0 ""
        demoKernel).module = some 8 ∧
    ((__KernelLoadELFFromPtr (demoEnv (some (memOfList (demoImage (cstr "demo") 0)))) elfBuffer 0 ""
        demoKernel).kernel.kernelObjects.Get 8).map (fun m => m.nm.name) =
      some (some (cstr "demo" ++ List.replicate 24 0)) ∧
    (__KernelLoadELFFromPtr (demoEnv (some (memOfList (demoImage (cstr "demo") 0)))) elfBuffer 0 ""
        demoKernel).kernel.memory.GetPointer
      (PspModuleInfo.at (__KernelLoadELFFromPtr (demoEnv (some (memOfList (demoImage (cstr "demo") 0))))
        elfBuffer 0 "" demoKernel).kernel.memory 0).libent = 92 ∧
    (__KernelLoadELFFromPtr (demoEnv (some (memOfList (demoImage (cstr "demo") 0)))) elfBuffer 0 ""
        demoKernel).kernel.memory.GetPointer
      (PspModuleInfo.at (__KernelLoadELFFromPtr (demoEnv (some (memOfList (demoImage (cstr "demo") 0))))
        elfBuffer 0 "" demoKernel).kernel.memory 0).libentend = 124 ∧
    PspLibEntEntry.at (__KernelLoadELFFromPtr (demoEnv (some (memOfList (demoImage (cstr "demo") 0))))
        elfBuffer 0 "" demoKernel).kernel.memory 108 =
      { name := 0, size := 4, vcount := 1, fcount := 1, resident := 0x08800090 } ∧
    (__KernelLoadELFFromPtr (demoEnv (some (memOfList (demoImage (cstr "demo") 0)))) elfBuffer 0 ""
        demoKernel).kernel.memory.host.u32 (144 + 4 * 0) = 0xAAAA0001 ∧
    (__KernelLoadELFFromPtr (demoEnv (some (memOfList (demoImage (cstr "demo") 0)))) elfBuffer 0 ""
        demoKernel).kernel.memory.host.u32 (144 + 4 * (1 + 1 + 0)) = 0x08804000 ∧
    (⟨CStr.nmName (some (cstr "demo" ++ List.replicate 24 0)), 0xAAAA0001, 0x08804000⟩ : SyscallRef) ∉
      (__KernelLoadELFFromPtr (demoEnv (some (memOfList (demoImage (cstr "demo") 0)))) elfBuffer 0 ""
        demoKernel).kernel.resolveSyscalls := by
  decide

/-! ## C4: the variables of an export entry -/

/-- C4 as stated fails: the second export entry of the demo image has one
function and one variable, with resident table
`[0xAAAA0001, 0xBBBB0002, 0x08804000, 0x08805000]`; the load registers the
function slot only, one registration and not two, and the variable slot
`(owner, 0xBBBB0002) -> 0x08805000` is not among them. -/
theorem variable_slot_not_registered :
    (PspLibEntEntry.at (memOfList (demoImage (cstr "demo") 4)) 108).size = 4 ∧
    (PspLibEntEntry.at (memOfList (demoImage (cstr "demo") 4)) 108).fcount = 1 ∧
    (PspLibEntEntry.at (memOfList (demoImage (cstr "demo") 4)) 108).vcount = 1 ∧
    (__KernelLoadELFFromPtr (demoEnv (some (memOfList (demoImage (cstr "demo") 4)))) elfBuffer 0 ""
        demoKernel).kernel.resolveSyscalls =
      [⟨CStr.nmName (some (cstr "demo" ++ List.replicate 24 0)), 0xAAAA0001, 0x08804000⟩] ∧
    (⟨CStr.nmName (some (cstr "demo" ++ List.replicate 24 0)), 0xBBBB0002, 0x08805000⟩ : SyscallRef) ∉
      (__KernelLoadELFFromPtr (demoEnv (some (memOfList (demoImage (cstr "demo") 4)))) elfBuffer 0 ""
        demoKernel).kernel.resolveSyscalls := by
  decide

/-- C4, amended: for every iteration `t` of the export loop whose entry has a
non-zero record size, the calls of `ResolveSyscall` made in that iteration
are exactly `(owner, resident[j], resident[fcount + vcount + j])` for
`j < fcount`, in order: the function slots only, `fcount` registrations
whatever `vcount` is. -/
theorem export_registers_functions_only (mem : Memory) (nmName : Option (List Nat))
    (modinfo t : Nat) (ht : t < numEnts (PspModuleInfo.at mem modinfo))
    (hsize : (PspLibEntEntry.at mem
      (entAt mem t (mem.GetPointer (PspModuleInfo.at mem modinfo).libent))).size ≠ 0) :
    let ent := PspLibEntEntry.at mem (entAt mem t (mem.GetPointer (PspModuleInfo.at mem modinfo).libent))
    let resident := fun i => mem.host.u32 (mem.GetPointer ent.resident + 4 * i)
    let owner := if ent.name = 0 then CStr.nmName nmName else CStr.guest (mem.GetPointer ent.name)
    (exportIterations mem nmName modinfo)[t]? =
        some ((List.range ent.fcount).map (fun j =>
          (⟨owner, resident j, resident (ent.fcount + ent.vcount + j)⟩ : SyscallRef))) ∧
      ((exportIterations mem nmName modinfo)[t]?.map List.length) = some ent.fcount := by
  intro ent resident owner
  have h : (exportIterations mem nmName modinfo)[t]? =
        some ((List.range ent.fcount).map (fun j =>
          (⟨owner, resident j, resident (ent.fcount + ent.vcount + j)⟩ : SyscallRef))) := by
    unfold exportIterations
    rw [exportLoop_getElem? mem _ _ _ t ht, if_neg hsize, exportEntry_eq_map]
  refine ⟨h, ?_⟩
  rw [h]
  simp

/-- Witness for the amended C4 on the demo image: iteration 1 has
`fcount = 1` and `vcount = 1` and makes one call. -/
theorem export_registers_functions_only_witness :
    1 < numEnts (PspModuleInfo.at (memOfList (demoImage (cstr "demo") 4)) 0) ∧
    (PspLibEntEntry.at (memOfList (demoImage (cstr "demo") 4))
      (entAt (memOfList (demoImage (cstr "demo") 4)) 1 92)).size ≠ 0 ∧
    (exportIterations (memOfList (demoImage (cstr "demo") 4)) none 0)[1]? =
      some [⟨CStr.nmName none, 0xAAAA0001, 0x08804000⟩] :=
  ⟨by decide, by decide,
    (export_registers_functions_only (memOfList (demoImage (cstr "demo") 4)) none 0 1 (by decide)
      (by decide)).1.trans (by decide)⟩

/-! ## C5: the table bounds in the module-info header -/

theorem importLoop_length (env : Env) (e n m : Nat) (mem : Memory) :
    (importLoop env e n m mem).1.length = n := by
  induction n generalizing m mem with
  | zero => rfl
  | succ n ih =>
    rw [importLoop]
    simp only [List.length_cons, ih]

/-- C5 as stated fails: in the demo image the words at header offsets 36 and
40 are `0x0880005c` and `0x0880007c` and the words at 44 and 48 are
`0x08800034` and `0x0880005c`.  The loader processes two import groups,
starting at the address in the word at 44 (host byte 52), where the words at
36 and 40 would give one group starting at host byte 92; and it walks the
export entries from the address in the word at 36. -/
theorem import_bounds_not_at_36 :
    (memOfList (demoImage (cstr "demo") 4)).host.u32 36 = 0x0880005c ∧
    (memOfList (demoImage (cstr "demo") 4)).host.u32 40 = 0x0880007c ∧
    (memOfList (demoImage (cstr "demo") 4)).host.u32 44 = 0x08800034 ∧
    (memOfList (demoImage (cstr "demo") 4)).host.u32 48 = 0x0880005c ∧
    (0x0880007c - 0x0880005c) / 20 = 1 ∧
    (importGroups (demoEnv none) (memOfList (demoImage (cstr "demo") 4)) 0).1.length = 2 ∧
    (importGroups (demoEnv none) (memOfList (demoImage (cstr "demo") 4)) 0).1 =
      (importLoop (demoEnv none) 52 2 0 (memOfList (demoImage (cstr "demo") 4))).1 ∧
    (importGroups (demoEnv none) (memOfList (demoImage (cstr "demo") 4)) 0).1 ≠
      (importLoop (demoEnv none) 92 1 0 (memOfList (demoImage (cstr "demo") 4))).1 ∧
    exportIterations (memOfList (demoImage (cstr "demo") 4)) none 0 =
      exportLoop (memOfList (demoImage (cstr "demo") 4)) none 2 92 := by
  decide

/-- C5, amended: the import-stub table bounds are the words at header byte
offsets 44 and 48 (`libstub`, `libstubend`) and the export table bounds the
words at 36 and 40 (`libent`, `libentend`).  The import loop handles
`(word@48 - word@44)/20` groups, the differences taken in `u32`, starting at
address `word@44`, and the export loop makes `(word@40 - word@36)/16`
iterations starting at address `word@36`. -/
theorem table_bounds_from_header (env : Env) (mem : Memory) (nmName : Option (List Nat))
    (modinfo : Nat) :
    importGroups env mem modinfo =
        importLoop env (mem.GetPointer (mem.host.u32 (modinfo + 44)))
          ((mem.host.u32 (modinfo + 48) + 2 ^ 32 - mem.host.u32 (modinfo + 44)) % 2 ^ 32 / 20) 0
          mem ∧
      (importGroups env mem modinfo).1.length =
        (mem.host.u32 (modinfo + 48) + 2 ^ 32 - mem.host.u32 (modinfo + 44)) % 2 ^ 32 / 20 ∧
      exportIterations mem nmName modinfo =
        exportLoop mem nmName
          ((mem.host.u32 (modinfo + 40) + 2 ^ 32 - mem.host.u32 (modinfo + 36)) % 2 ^ 32 / 16)
          (mem.GetPointer (mem.host.u32 (modinfo + 36))) ∧
      (exportIterations mem nmName modinfo).length =
        (mem.host.u32 (modinfo + 40) + 2 ^ 32 - mem.host.u32 (modinfo + 36)) % 2 ^ 32 / 16 := by
  have hi : importGroups env mem modinfo =
        importLoop env (mem.GetPointer (mem.host.u32 (modinfo + 44)))
          ((mem.host.u32 (modinfo + 48) + 2 ^ 32 - mem.host.u32 (modinfo + 44)) % 2 ^ 32 / 20) 0
          mem := by
    simp only [importGroups, numModules, PspModuleInfo.at, u32sub_eq]
  have he : exportIterations mem nmName modinfo =
        exportLoop mem nmName
          ((mem.host.u32 (modinfo + 40) + 2 ^ 32 - mem.host.u32 (modinfo + 36)) % 2 ^ 32 / 16)
          (mem.GetPointer (mem.host.u32 (modinfo + 36))) := by
    simp only [exportIterations, numEnts, PspModuleInfo.at, u32sub_eq]
  refine ⟨hi, ?_, he, ?_⟩
  · rw [hi, importLoop_length]
  · rw [he, exportLoop_length]

/-! ## C6: the executable inside a container -/

/-- C6, the code at the failing input: `pbpBuffer` starts with the container
magic and has a table of 8 entries with `table[5] = 500` (the word at byte
28) and `table[6] = 600`.  The stream-based `__KernelLoadPBP` seeks to 500,
but `__KernelLoadModule` hands the ELF loader the bytes at offset 600: its
loop copies `offsets[i]` from byte `12 + 4*i`, which is `table[i + 1]`. -/
theorem load_module_uses_seventh_entry :
    memcmpEq pbpBuffer 0 pbpMagic = true ∧
    u32sub (pbpBuffer.u32 8) 8 / 4 = 8 ∧
    pbpBuffer.u32 (8 + 4 * 5) = 500 ∧
    pbpBuffer.u32 (8 + 4 * 6) = 600 ∧
    loadPBPSeek pbpBuffer = some 500 ∧
    loadModuleElfOffset pbpBuffer = some 600 := by
  decide


/-! ## C7: a buffer without the executable magic -/

theorem Get_freshUID (p : KernelObjectPool) : p.Get p.freshUID = none := by
  have h := KernelObjectPool.freshUID_not_mem p
  unfold KernelObjectPool.Get
  rw [List.find?_eq_none.mpr, Option.map_none']
  intro e he heq
  exact h (by
    have : e.1 = p.freshUID := by simpa using heq
    exact this ▸ List.mem_map_of_mem Prod.fst he)

/-- C7: when the first word of the buffer after the decryption gate is none of
`0x5053507e`, `0x4543537e` and `0x464c457f`, `__KernelLoadELFFromPtr` returns
no module, leaves "File corrupt" in the error string and destroys the module
it created: the kernel-object table, and so the set of live ids, is what it
was before the call, and the id handed out for the attempt is not in it.
When the first word is `0x4543537e` the same holds with the error string
"Kernel module?". -/
theorem bad_magic_rejected (env : Env) (ptr : Bytes) (loadAddress : Nat) (error_string : String)
    (k : Kernel) :
    ((decryptGate env ptr).1.u32 0 ≠ 0x5053507e ∧ (decryptGate env ptr).1.u32 0 ≠ 0x4543537e ∧
        (decryptGate env ptr).1.u32 0 ≠ 0x464c457f →
      (__KernelLoadELFFromPtr env ptr loadAddress error_string k).module = none ∧
      (__KernelLoadELFFromPtr env ptr loadAddress error_string k).error_string = "File corrupt" ∧
      (__KernelLoadELFFromPtr env ptr loadAddress error_string k).kernel.kernelObjects =
        k.kernelObjects ∧
      (__KernelLoadELFFromPtr env ptr loadAddress error_string k).kernel.kernelObjects.uids =
        k.kernelObjects.uids ∧
      (__KernelLoadELFFromPtr env ptr loadAddress error_string k).kernel.kernelObjects.Get
        (k.kernelObjects.Create Module.new).1 = none) ∧
    ((decryptGate env ptr).1.u32 0 = 0x4543537e →
      (__KernelLoadELFFromPtr env ptr loadAddress error_string k).module = none ∧
      (__KernelLoadELFFromPtr env ptr loadAddress error_string k).error_string = "Kernel module?" ∧
      (__KernelLoadELFFromPtr env ptr loadAddress error_string k).kernel.kernelObjects =
        k.kernelObjects ∧
      (__KernelLoadELFFromPtr env ptr loadAddress error_string k).kernel.kernelObjects.uids =
        k.kernelObjects.uids ∧
      (__KernelLoadELFFromPtr env ptr loadAddress error_string k).kernel.kernelObjects.Get
        (k.kernelObjects.Create Module.new).1 = none) := by
  constructor
  · rintro ⟨_, h2, h3⟩
    rw [load_corrupt env ptr loadAddress error_string k h2 h3]
    exact ⟨rfl, rfl, rfl, rfl, Get_freshUID k.kernelObjects⟩
  · intro h
    rw [load_kernel_signed env ptr loadAddress error_string k h]
    exact ⟨rfl, rfl, rfl, rfl, Get_freshUID k.kernelObjects⟩

/-- Witness for C7: the 4-byte buffer `00 01 02 03` is rejected as corrupt and
the buffer `7e 53 43 45` as a kernel module, the table `[7]` of live ids
being left as it was. -/
theorem bad_magic_rejected_witness :
    ((decryptGate (demoEnv none) (Bytes.ofList [0x00, 0x01, 0x02, 0x03])).1.u32 0 = 0x03020100 ∧
      (__KernelLoadELFFromPtr (demoEnv none) (Bytes.ofList [0x00, 0x01, 0x02, 0x03]) 0 ""
        demoKernel).module = none ∧
      (__KernelLoadELFFromPtr (demoEnv none) (Bytes.ofList [0x00, 0x01, 0x02, 0x03]) 0 ""
        demoKernel).error_string = "File corrupt" ∧
      (__KernelLoadELFFromPtr (demoEnv none) (Bytes.ofList [0x00, 0x01, 0x02, 0x03]) 0 ""
        demoKernel).kernel.kernelObjects.uids = [7]) ∧
    ((decryptGate (demoEnv none) (Bytes.ofList [0x7e, 0x53, 0x43, 0x45])).1.u32 0 = 0x4543537e ∧
      (__KernelLoadELFFromPtr (demoEnv none) (Bytes.ofList [0x7e, 0x53, 0x43, 0x45]) 0 ""
        demoKernel).error_string = "Kernel module?" ∧
      (__KernelLoadELFFromPtr (demoEnv none) (Bytes.ofList [0x7e, 0x53, 0x43, 0x45]) 0 ""
        demoKernel).kernel.kernelObjects.uids = [7]) :=
  have h1 := (bad_magic_rejected (demoEnv none) (Bytes.ofList [0x00, 0x01, 0x02, 0x03]) 0 ""
    demoKernel).1 ⟨by decide, by decide, by decide⟩
  have h2 := (bad_magic_rejected (demoEnv none) (Bytes.ofList [0x7e, 0x53, 0x43, 0x45]) 0 ""
    demoKernel).2 (by decide)
  ⟨⟨by decide, h1.1, h1.2.1, h1.2.2.2.1⟩, ⟨by decide, h2.2.1, h2.2.2.2.1⟩⟩

/-! ## C8: the blacklist -/

theorem strcmpEq_iff (b : Bytes) (p : Nat) (s : List Nat) (hs : 0 ∉ s) :
    strcmpEq b p s = true ↔ IsCStr b p s := by
  induction s generalizing p with
  | nil =>
    simp [strcmpEq, IsCStr]
  | cons c cs ih =>
    have hc : c ≠ 0 := fun h => hs (h ▸ List.mem_cons_self _ _)
    have hcs : 0 ∉ cs := fun h => hs (List.mem_cons_of_mem _ h)
    have hc2 : (c == 0) = false := by simpa using hc
    rw [strcmpEq, hc2, Bool.false_or, Bool.and_eq_true, ih (p + 1) hcs]
    unfold IsCStr
    constructor
    · rintro ⟨h0, h1, h2⟩
      refine ⟨fun i hi => ?_, ?_⟩
      · cases i with
        | zero =>
          have : b.u8 p = c := by simpa using h0
          simp [this]
        | succ i =>
          have := h1 i (by simpa using hi)
          rw [List.getElem?_cons_succ, this]
          congr 2
          omega
      · rw [← h2]
        congr 1
        simp only [List.length_cons]
        omega
    · rintro ⟨h1, h2⟩
      refine ⟨?_, fun i hi => ?_, ?_⟩
      · have := h1 0 (by simp)
        simp at this
        simp [this]
      · have := h1 (i + 1) (by simpa using hi)
        rw [List.getElem?_cons_succ] at this
        rw [this]
        congr 2
        omega
      · rw [← h2]
        congr 1
        simp only [List.length_cons]
        omega

theorem blacklistedModules_no_nul : ∀ b ∈ blacklistedModules, 0 ∉ b := by decide

theorem isBlacklisted_iff (mem : Memory) (modinfo : Nat) :
    isBlacklisted mem modinfo = true ↔
      ∃ b ∈ blacklistedModules, IsCStr mem.host (modinfo + 4) b := by
  unfold isBlacklisted
  rw [List.any_eq_true]
  constructor
  · rintro ⟨b, hb, h⟩
    exact ⟨b, hb, (strcmpEq_iff _ _ b (blacklistedModules_no_nul b hb)).mp h⟩
  · rintro ⟨b, hb, h⟩
    exact ⟨b, hb, (strcmpEq_iff _ _ b (blacklistedModules_no_nul b hb)).mpr h⟩

/-- C8: for an existing, non-empty file whose image is mapped, if the name in
the module-info header is, as a NUL-terminated string, one of the ten
blacklisted names, `__KernelLoadELFFromPtr` returns no module with the error
string "Blacklisted", the module created for the attempt is destroyed (the
kernel-object table is what it was and the id of the attempt is not in it),
no `WriteSyscall` and no `ResolveSyscall` is issued, and
`sceKernelLoadModule` returns 1; if the name is none of the ten, the load
returns the module and is not rejected. -/
theorem blacklisted_module_soft_success (env : Env) (fs : FileSystem) (name : String) (k : Kernel)
    (mem : Memory) (hexists : (fs.GetFileInfo name).exists_ = true)
    (hsize : (fs.GetFileInfo name).size ≠ 0)
    (hmagic : (decryptGate env (fs.ReadFile name)).1.u32 0 = 0x464c457f)
    (hload : (env.reader (decryptGate env (fs.ReadFile name)).1).LoadInto 0 k.memory = some mem) :
    let r := __KernelLoadELFFromPtr env (fs.ReadFile name) 0 "" k
    let namePtr := modinfoPtr (env.reader (decryptGate env (fs.ReadFile name)).1) mem + 4
    ((∃ b ∈ blacklistedModules, IsCStr mem.host namePtr b) →
      r.module = none ∧ r.error_string = "Blacklisted" ∧
      r.kernel.kernelObjects = k.kernelObjects ∧
      r.kernel.kernelObjects.Get (k.kernelObjects.Create Module.new).1 = none ∧
      r.kernel.writeSyscalls = k.writeSyscalls ∧
      r.kernel.resolveSyscalls = k.resolveSyscalls ∧
      (sceKernelLoadModule env fs (some name) k).1 = 1) ∧
    ((∀ b ∈ blacklistedModules, ¬ IsCStr mem.host namePtr b) →
      r.module = some (k.kernelObjects.Create Module.new).1 ∧ r.error_string ≠ "Blacklisted" ∧
      (sceKernelLoadModule env fs (some name) k).1 = (k.kernelObjects.Create Module.new).1) := by
  intro r namePtr
  have hs : sceKernelLoadModule env fs (some name) k =
      match r.module with
      | none => (1, r.kernel)
      | some uid => (uid, r.kernel) := by
    simp only [sceKernelLoadModule, hexists, hsize, Bool.not_true, Bool.false_eq_true, if_false]
  constructor
  · intro hb
    have hbl := (isBlacklisted_iff mem _).mpr hb
    have hr : r = _ := load_blacklisted env (fs.ReadFile name) 0 "" k mem hmagic hload hbl
    rw [hs, hr]
    exact ⟨rfl, rfl, rfl, Get_freshUID k.kernelObjects, rfl, rfl, rfl⟩
  · intro hb
    have hbl : isBlacklisted mem (modinfoPtr (env.reader (decryptGate env (fs.ReadFile name)).1) mem)
        = false := by
      rw [Bool.eq_false_iff, Ne, isBlacklisted_iff]
      rintro ⟨b, hb1, hb2⟩
      exact hb b hb1 hb2
    have hr : r = _ := load_linked env (fs.ReadFile name) 0 "" k mem hmagic hload hbl
    rw [hs, hr]
    have hne : ("" : String) ≠ "Blacklisted" := by decide
    exact ⟨rfl, hne, rfl⟩

/-- Witness for C8: an image named `sceNet_Library` is rejected, nothing is
patched or registered, the table of live ids stays `[7]`, and
`sceKernelLoadModule` returns 1; the same image named `demo` is loaded as
module 8. -/
theorem blacklisted_module_soft_success_witness :
    ((demoFS [0x7f, 0x45, 0x4c, 0x46]).GetFileInfo "disc0:/net.prx").exists_ = true ∧
    ((demoFS [0x7f, 0x45, 0x4c, 0x46]).GetFileInfo "disc0:/net.prx").size ≠ 0 ∧
    (∃ b ∈ blacklistedModules,
      IsCStr (memOfList (demoImage (cstr "sceNet_Library") 4)).host
        (modinfoPtr (demoReader (some (memOfList (demoImage (cstr "sceNet_Library") 4))))
          (memOfList (demoImage (cstr "sceNet_Library") 4)) + 4) b) ∧
    (__KernelLoadELFFromPtr (demoEnv (some (memOfList (demoImage (cstr "sceNet_Library") 4))))
      ((demoFS [0x7f, 0x45, 0x4c, 0x46]).ReadFile "disc0:/net.prx") 0 "" demoKernel).error_string =
        "Blacklisted" ∧
    (__KernelLoadELFFromPtr (demoEnv (some (memOfList (demoImage (cstr "sceNet_Library") 4))))
      ((demoFS [0x7f, 0x45, 0x4c, 0x46]).ReadFile "disc0:/net.prx") 0 ""
        demoKernel).kernel.kernelObjects.uids = [7] ∧
    (sceKernelLoadModule (demoEnv (some (memOfList (demoImage (cstr "sceNet_Library") 4))))
      (demoFS [0x7f, 0x45, 0x4c, 0x46]) (some "disc0:/net.prx") demoKernel).1 = 1 ∧
    (sceKernelLoadModule (demoEnv (some (memOfList (demoImage (cstr "demo") 4))))
      (demoFS [0x7f, 0x45, 0x4c, 0x46]) (some "disc0:/net.prx") demoKernel).1 = 8 :=
  have hb : ∃ b ∈ blacklistedModules,
      IsCStr (memOfList (demoImage (cstr "sceNet_Library") 4)).host
        (modinfoPtr (demoReader (some (memOfList (demoImage (cstr "sceNet_Library") 4))))
          (memOfList (demoImage (cstr "sceNet_Library") 4)) + 4) b :=
    ⟨cstr "sceNet_Library", by decide, by decide⟩
  have h1 := (blacklisted_module_soft_success
    (demoEnv (some (memOfList (demoImage (cstr "sceNet_Library") 4))))
    (demoFS [0x7f, 0x45, 0x4c, 0x46]) "disc0:/net.prx" demoKernel
    (memOfList (demoImage (cstr "sceNet_Library") 4)) rfl (by decide) (by decide) rfl).1 hb
  have h2 := (blacklisted_module_soft_success
    (demoEnv (some (memOfList (demoImage (cstr "demo") 4))))
    (demoFS [0x7f, 0x45, 0x4c, 0x46]) "disc0:/net.prx" demoKernel
    (memOfList (demoImage (cstr "demo") 4)) rfl (by decide) (by decide) rfl).2 (by decide)
  ⟨rfl, by decide, hb, h1.2.1, congrArg KernelObjectPool.uids h1.2.2.1, h1.2.2.2.2.2.2,
    h2.2.2.trans (by decide)⟩

theorem loadModuleOffsets_spec (fileptr : Bytes) (n i : Nat) (offsets : List (Option Nat))
    (h : i + n ≤ 16) :
    ∃ r, loadModuleOffsets fileptr n i offsets = some r ∧
      ∀ j, r[j]? = if i ≤ j ∧ j < i + n ∧ j < offsets.length then some (some (fileptr.u32 (12 + 4 * j)))
        else offsets[j]? := by
  induction n generalizing i offsets with
  | zero =>
    refine ⟨offsets, rfl, fun j => ?_⟩
    have : ¬ (i ≤ j ∧ j < i + 0 ∧ j < offsets.length) := by omega
    rw [if_neg this]
  | succ n ih =>
    have hi : i < 16 := by omega
    obtain ⟨r, hr, hspec⟩ := ih (i + 1) (offsets.set i (some (fileptr.u32 (12 + 4 * i)))) (by omega)
    refine ⟨r, ?_, fun j => ?_⟩
    · rw [loadModuleOffsets, if_pos hi, hr]
    · rw [hspec j, List.length_set, List.getElem?_set]
      by_cases hij : i = j
      · subst hij
        by_cases hl : i < offsets.length
        · have h1 : ¬ (i + 1 ≤ i ∧ i < i + 1 + n ∧ i < offsets.length) := by omega
          have h2 : i ≤ i ∧ i < i + (n + 1) ∧ i < offsets.length := by omega
          simp [h1, h2, hl]
        · have h1 : ¬ (i + 1 ≤ i ∧ i < i + 1 + n ∧ i < offsets.length) := by omega
          have h2 : ¬ (i ≤ i ∧ i < i + (n + 1) ∧ i < offsets.length) := by omega
          have h3 : offsets[i]? = none := List.getElem?_eq_none (by omega)
          simp [h1, h2, hl, h3]
      · by_cases hc : i + 1 ≤ j ∧ j < i + 1 + n ∧ j < offsets.length
        · have h2 : i ≤ j ∧ j < i + (n + 1) ∧ j < offsets.length := by omega
          rw [if_pos hc, if_pos h2]
        · have h2 : ¬ (i ≤ j ∧ j < i + (n + 1) ∧ j < offsets.length) := by omega
          rw [if_neg hc, if_neg h2, if_neg hij]

theorem loadPBPOffsets_spec (n i : Nat) (s : IfStream) (offsets : List (Option Nat))
    (h : i + n ≤ 16) :
    ∃ r, loadPBPOffsets n i s offsets = some r ∧
      ∀ j, r.1[j]? = if i ≤ j ∧ j < i + n ∧ j < offsets.length then
          some (some (s.file.u32 (s.pos + 4 * (j - i))))
        else offsets[j]? := by
  induction n generalizing i s offsets with
  | zero =>
    refine ⟨(offsets, s), rfl, fun j => ?_⟩
    have : ¬ (i ≤ j ∧ j < i + 0 ∧ j < offsets.length) := by omega
    rw [if_neg this]
  | succ n ih =>
    have hi : i < 16 := by omega
    obtain ⟨r, hr, hspec⟩ := ih (i + 1) s.readU32.2 (offsets.set i (some s.readU32.1)) (by omega)
    refine ⟨r, ?_, fun j => ?_⟩
    · rw [loadPBPOffsets, if_pos hi, hr]
    · rw [hspec j, List.length_set, List.getElem?_set]
      by_cases hij : i = j
      · subst hij
        by_cases hl : i < offsets.length
        · have h1 : ¬ (i + 1 ≤ i ∧ i < i + 1 + n ∧ i < offsets.length) := by omega
          have h2 : i ≤ i ∧ i < i + (n + 1) ∧ i < offsets.length := by omega
          simp [h1, h2, hl, IfStream.readU32]
        · have h1 : ¬ (i + 1 ≤ i ∧ i < i + 1 + n ∧ i < offsets.length) := by omega
          have h2 : ¬ (i ≤ i ∧ i < i + (n + 1) ∧ i < offsets.length) := by omega
          have h3 : offsets[i]? = none := List.getElem?_eq_none (by omega)
          simp [h1, h2, hl, h3]
      · by_cases hc : i + 1 ≤ j ∧ j < i + 1 + n ∧ j < offsets.length
        · have h2 : i ≤ j ∧ j < i + (n + 1) ∧ j < offsets.length := by omega
          have h3 : s.pos + 4 + 4 * (j - (i + 1)) = s.pos + 4 * (j - i) := by omega
          rw [if_pos hc, if_pos h2]
          simp only [IfStream.readU32, h3]
        · have h2 : ¬ (i ≤ j ∧ j < i + (n + 1) ∧ j < offsets.length) := by omega
          rw [if_neg hc, if_neg h2, if_neg hij]


theorem loadModuleElfOffset_of_table (fileptr : Bytes) (hm : memcmpEq fileptr 0 pbpMagic = true)
    (h6 : 6 ≤ u32sub (fileptr.u32 8) 8 / 4) (h16 : u32sub (fileptr.u32 8) 8 / 4 ≤ 16) :
    loadModuleElfOffset fileptr = some (fileptr.u32 (8 + 4 * 6)) ∧
      loadPBPSeek fileptr = some (fileptr.u32 (8 + 4 * 5)) := by
  generalize hn : u32sub (fileptr.u32 8) 8 / 4 = n at h6 h16
  have hlen : (offsetsUninit.set 0 (some (fileptr.u32 8))).length = 16 := by
    rw [List.length_set]
    rfl
  constructor
  · obtain ⟨r, hr, hspec⟩ := loadModuleOffsets_spec fileptr (n - 1) 1
      (offsetsUninit.set 0 (some (fileptr.u32 8))) (by omega)
    have h5 := hspec 5
    have hc : 1 ≤ 5 ∧ 5 < 1 + (n - 1) ∧
        5 < (offsetsUninit.set 0 (some (fileptr.u32 8))).length := by
      rw [hlen]
      omega
    rw [if_pos hc] at h5
    unfold loadModuleElfOffset
    rw [if_pos hm]
    dsimp only
    rw [hn, hr, Option.some_bind, List.getD_eq_getElem?_getD, h5]
    rfl
  · obtain ⟨r, hr, hspec⟩ := loadPBPOffsets_spec (n - 1) 1
      (⟨fileptr, 12⟩ : IfStream) (offsetsUninit.set 0 (some (fileptr.u32 8))) (by omega)
    have h5 := hspec 5
    have hc : 1 ≤ 5 ∧ 5 < 1 + (n - 1) ∧
        5 < (offsetsUninit.set 0 (some (fileptr.u32 8))).length := by
      rw [hlen]
      omega
    rw [if_pos hc] at h5
    unfold loadPBPSeek
    dsimp only [IfStream.readU32]
    rw [hn, hr, Option.some_bind, List.getD_eq_getElem?_getD, h5]
    rfl


theorem load_module_offset_demo (env : Env) (error_string : String) (k : Kernel) :
    __KernelLoadModule env pbpBuffer error_string k =
      some (__KernelLoadELFFromPtr env (pbpBuffer.advance 600) env.PSP_GetDefaultLoadAddress
        error_string k) := by
  simp [__KernelLoadModule, show loadModuleElfOffset pbpBuffer = some 600 by decide]

/-! ## C9: what sceKernelLoadModule reports for a load that failed -/

/-- C9 as stated fails: for an existing 4-byte file `00 01 02 03` the load
aborts with "File corrupt" and `sceKernelLoadModule` returns 1, the value it
returns for a blacklisted module; the same holds for a kernel-signed file and
for an image whose segments cannot be mapped. -/
theorem corrupt_file_reports_success :
    ((demoFS [0x00, 0x01, 0x02, 0x03]).GetFileInfo "disc0:/bad.prx").exists_ = true ∧
    ((demoFS [0x00, 0x01, 0x02, 0x03]).GetFileInfo "disc0:/bad.prx").size = 4 ∧
    (__KernelLoadELFFromPtr (demoEnv none)
      ((demoFS [0x00, 0x01, 0x02, 0x03]).ReadFile "disc0:/bad.prx") 0 "" demoKernel).module = none ∧
    (__KernelLoadELFFromPtr (demoEnv none)
      ((demoFS [0x00, 0x01, 0x02, 0x03]).ReadFile "disc0:/bad.prx") 0 "" demoKernel).error_string =
        "File corrupt" ∧
    (sceKernelLoadModule (demoEnv none) (demoFS [0x00, 0x01, 0x02, 0x03]) (some "disc0:/bad.prx")
      demoKernel).1 = 1 ∧
    (__KernelLoadELFFromPtr (demoEnv none)
      ((demoFS [0x7e, 0x53, 0x43, 0x45]).ReadFile "disc0:/bad.prx") 0 "" demoKernel).error_string =
        "Kernel module?" ∧
    (sceKernelLoadModule (demoEnv none) (demoFS [0x7e, 0x53, 0x43, 0x45]) (some "disc0:/bad.prx")
      demoKernel).1 = 1 ∧
    (demoReader none).LoadInto 0 demoKernel.memory = none ∧
    (sceKernelLoadModule (demoEnv none) (demoFS [0x7f, 0x45, 0x4c, 0x46]) (some "disc0:/bad.prx")
      demoKernel).1 = 1 ∧
    (sceKernelLoadModule (demoEnv (some (memOfList (demoImage (cstr "sceNet_Library") 4))))
      (demoFS [0x7f, 0x45, 0x4c, 0x46]) (some "disc0:/net.prx") demoKernel).1 = 1 := by
  refine ⟨rfl, rfl, ?_, ?_, ?_, ?_, ?_, rfl, ?_, ?_⟩ <;> decide

/-- C9, amended: for every existing, non-empty file whose load aborts, be it
on a kernel-signed magic, an unrecognised magic, a segment mapping failure or
the blacklist, `sceKernelLoadModule` returns 1 and leaves the kernel-object
table as it was: no load failure is reported to the guest as an error code.
A missing file returns `SCE_KERNEL_ERROR_NOFILE` and a zero-length file
`SCE_KERNEL_ERROR_ILLEGAL_OBJECT`, with the state untouched. -/
theorem failed_load_reports_success (env : Env) (fs : FileSystem) (name : String) (k : Kernel) :
    ((fs.GetFileInfo name).exists_ = false →
      sceKernelLoadModule env fs (some name) k = (env.SCE_KERNEL_ERROR_NOFILE, k)) ∧
    ((fs.GetFileInfo name).exists_ = true → (fs.GetFileInfo name).size = 0 →
      sceKernelLoadModule env fs (some name) k = (env.SCE_KERNEL_ERROR_ILLEGAL_OBJECT, k)) ∧
    ((fs.GetFileInfo name).exists_ = true → (fs.GetFileInfo name).size ≠ 0 →
      ((decryptGate env (fs.ReadFile name)).1.u32 0 = 0x4543537e ∨
        (decryptGate env (fs.ReadFile name)).1.u32 0 ≠ 0x464c457f ∨
        (env.reader (decryptGate env (fs.ReadFile name)).1).LoadInto 0 k.memory = none ∨
        ∃ mem, (env.reader (decryptGate env (fs.ReadFile name)).1).LoadInto 0 k.memory = some mem ∧
          isBlacklisted mem (modinfoPtr (env.reader (decryptGate env (fs.ReadFile name)).1) mem) =
            true) →
      (__KernelLoadELFFromPtr env (fs.ReadFile name) 0 "" k).module = none ∧
      (sceKernelLoadModule env fs (some name) k).1 = 1 ∧
      (sceKernelLoadModule env fs (some name) k).2.kernelObjects = k.kernelObjects) := by
  refine ⟨fun h => ?_, fun h hs => ?_, fun h hs hfail => ?_⟩
  · simp [sceKernelLoadModule, h]
  · simp [sceKernelLoadModule, h, hs]
  · have hsk : sceKernelLoadModule env fs (some name) k =
        match (__KernelLoadELFFromPtr env (fs.ReadFile name) 0 "" k).module with
        | none => (1, (__KernelLoadELFFromPtr env (fs.ReadFile name) 0 "" k).kernel)
        | some uid => (uid, (__KernelLoadELFFromPtr env (fs.ReadFile name) 0 "" k).kernel) := by
      simp only [sceKernelLoadModule, h, hs, Bool.not_true, Bool.false_eq_true, if_false]
    by_cases hsce : (decryptGate env (fs.ReadFile name)).1.u32 0 = 0x4543537e
    · rw [hsk, load_kernel_signed env _ 0 "" k hsce]
      exact ⟨rfl, rfl, rfl⟩
    · by_cases helf : (decryptGate env (fs.ReadFile name)).1.u32 0 = 0x464c457f
      · rcases hfail with h1 | h1 | h1 | ⟨mem, h1, h2⟩
        · exact absurd h1 hsce
        · exact absurd helf h1
        · rw [hsk, load_map_failed env _ 0 "" k helf h1]
          exact ⟨rfl, rfl, rfl⟩
        · rw [hsk, load_blacklisted env _ 0 "" k mem helf h1 h2]
          exact ⟨rfl, rfl, rfl⟩
      · rw [hsk, load_corrupt env _ 0 "" k hsce helf]
        exact ⟨rfl, rfl, rfl⟩

/-- Witness for the amended C9: the corrupt 4-byte file gives 1, and an empty
file gives `SCE_KERNEL_ERROR_ILLEGAL_OBJECT`. -/
theorem failed_load_reports_success_witness :
    ((demoFS [0x00, 0x01, 0x02, 0x03]).GetFileInfo "disc0:/bad.prx").exists_ = true ∧
    ((demoFS [0x00, 0x01, 0x02, 0x03]).GetFileInfo "disc0:/bad.prx").size ≠ 0 ∧
    (decryptGate (demoEnv none)
      ((demoFS [0x00, 0x01, 0x02, 0x03]).ReadFile "disc0:/bad.prx")).1.u32 0 ≠ 0x464c457f ∧
    (sceKernelLoadModule (demoEnv none) (demoFS [0x00, 0x01, 0x02, 0x03]) (some "disc0:/bad.prx")
      demoKernel).1 = 1 ∧
    (sceKernelLoadModule (demoEnv none) (demoFS []) (some "disc0:/empty.prx") demoKernel).1 =
      (demoEnv none).SCE_KERNEL_ERROR_ILLEGAL_OBJECT :=
  ⟨rfl, by decide, by decide,
    ((failed_load_reports_success (demoEnv none) (demoFS [0x00, 0x01, 0x02, 0x03]) "disc0:/bad.prx"
      demoKernel).2.2 rfl (by decide) (Or.inr (Or.inl (by decide)))).2.1,
    congrArg Prod.fst ((failed_load_reports_success (demoEnv none) (demoFS [])
      "disc0:/empty.prx" demoKernel).2.1 rfl rfl)⟩

/-! ## C10: the stored name and GP value -/

theorem strncpy_eq (b : Bytes) (p n : Nat) :
    strncpy b p n =
      ((List.range n).map (fun i => b.u8 (p + i))).takeWhile (fun x => x != 0) ++
        List.replicate
          (n - (((List.range n).map (fun i => b.u8 (p + i))).takeWhile (fun x => x != 0)).length) 0 := by
  induction n generalizing p with
  | zero => rfl
  | succ n ih =>
    have hmap : (List.range (n + 1)).map (fun i => b.u8 (p + i)) =
        b.u8 p :: (List.range n).map (fun i => b.u8 (p + 1 + i)) := by
      rw [List.range_succ_eq_map, List.map_cons, List.map_map]
      refine congrArg₂ _ rfl (List.map_congr_left ?_)
      intro t _
      simp only [Function.comp, Nat.add_assoc, Nat.add_comm 1 t]
    rw [strncpy, hmap]
    by_cases h0 : b.u8 p = 0
    · rw [if_pos h0, List.takeWhile_cons_of_neg (by simp [h0])]
      rfl
    · rw [if_neg h0, List.takeWhile_cons_of_pos (by simp [h0]), ih (p + 1), List.cons_append,
        List.length_cons, Nat.add_sub_add_right]

theorem takeWhile_ne_zero_of_not_mem (l : List Nat) (h : 0 ∉ l) :
    l.takeWhile (fun x => x != 0) = l := by
  rw [List.takeWhile_eq_self_iff]
  intro x hx
  have : x ≠ 0 := fun hx0 => h (hx0 ▸ hx)
  simpa using this

/-- C10: after a load that succeeds, the name stored in the module depends on
the 28 bytes of the header's name field only: when none of them is NUL it is
those 28 bytes, and otherwise the bytes before the first NUL followed by NUL
padding up to 28 bytes; the stored GP value is the header's `gp` word. -/
theorem stored_name_from_name_field (env : Env) (ptr : Bytes) (loadAddress : Nat)
    (error_string : String) (k : Kernel) (mem : Memory)
    (hmagic : (decryptGate env ptr).1.u32 0 = 0x464c457f)
    (hload : (env.reader (decryptGate env ptr).1).LoadInto loadAddress k.memory = some mem)
    (hbl : isBlacklisted mem (modinfoPtr (env.reader (decryptGate env ptr).1) mem) = false) :
    let r := __KernelLoadELFFromPtr env ptr loadAddress error_string k
    let modinfo := modinfoPtr (env.reader (decryptGate env ptr).1) mem
    let field := (List.range 28).map (fun i => mem.host.u8 (modinfo + 4 + i))
    ∃ uid module, r.module = some uid ∧ r.kernel.kernelObjects.Get uid = some module ∧
      (∃ stored, module.nm.name = some stored ∧ stored.length = 28 ∧
        (0 ∉ field → stored = field) ∧
        (0 ∈ field → stored = field.takeWhile (fun x => x != 0) ++
          List.replicate (28 - (field.takeWhile (fun x => x != 0)).length) 0)) ∧
      module.nm.gp_value = some (mem.host.u32 (modinfo + 32)) := by
  intro r modinfo field
  have hr : r = _ := load_linked env ptr loadAddress error_string k mem hmagic hload hbl
  have hget := linkModule_Get env (env.reader (decryptGate env ptr).1) error_string k
    { Module.new with memoryBlockAddr := (env.reader (decryptGate env ptr).1).GetVaddr } mem
  rw [← hr] at hget
  have hs : strncpy mem.host (modinfo + 4) 28 =
      field.takeWhile (fun x => x != 0) ++
        List.replicate (28 - (field.takeWhile (fun x => x != 0)).length) 0 :=
    strncpy_eq mem.host (modinfo + 4) 28
  have hlen : (field.takeWhile (fun x => x != 0)).length ≤ 28 := by
    have h1 := (List.takeWhile_sublist (l := field) (fun x => x != 0)).length_le
    have h2 : field.length = 28 := by simp [field]
    omega
  refine ⟨k.kernelObjects.freshUID, _, ?_, hget, ⟨_, rfl, ?_, ?_, ?_⟩, rfl⟩
  · rw [hr]
    rfl
  · show (strncpy mem.host (modinfo + 4) 28).length = 28
    rw [hs, List.length_append, List.length_replicate]
    omega
  · intro h0
    show strncpy mem.host (modinfo + 4) 28 = field
    rw [hs, takeWhile_ne_zero_of_not_mem field h0]
    have h2 : field.length = 28 := by simp [field]
    rw [h2]
    simp
  · intro _
    exact hs

/-- Witness for C10 on the demo image: the name field holds `demo` and 24
NULs and the GP word is `0x08808000`. -/
theorem stored_name_from_name_field_witness :
    (decryptGate (demoEnv (some (memOfList (demoImage (cstr "demo") 4)))) elfBuffer).1.u32 0 =
      0x464c457f ∧
    isBlacklisted (memOfList (demoImage (cstr "demo") 4))
      (modinfoPtr (demoReader (some (memOfList (demoImage (cstr "demo") 4))))
        (memOfList (demoImage (cstr "demo") 4))) = false ∧
    ∃ uid module,
      (__KernelLoadELFFromPtr (demoEnv (some (memOfList (demoImage (cstr "demo") 4)))) elfBuffer 0 ""
        demoKernel).module = some uid ∧
      (__KernelLoadELFFromPtr (demoEnv (some (memOfList (demoImage (cstr "demo") 4)))) elfBuffer 0 ""
        demoKernel).kernel.kernelObjects.Get uid = some module ∧
      (∃ stored, module.nm.name = some stored ∧ stored.length = 28) ∧
      module.nm.gp_value = some 0x08808000 :=
  have h := stored_name_from_name_field (demoEnv (some (memOfList (demoImage (cstr "demo") 4))))
    elfBuffer 0 "" demoKernel (memOfList (demoImage (cstr "demo") 4)) (by decide) rfl (by decide)
  ⟨by decide, by decide,
    h.elim fun uid h1 => h1.elim fun module h2 =>
      ⟨uid, module, h2.1, h2.2.1,
        h2.2.2.1.elim (fun stored hs => ⟨stored, hs.1, hs.2.1⟩),
        h2.2.2.2.trans (by decide)⟩⟩

/-! ## C11: the length of the plaintext buffer -/

theorem decryptGate_newptr (env : Env) (ptr : Bytes) (hmagic : ptr.u32 0 = 0x5053507e) :
    (decryptGate env ptr).2 = some ((env.elf_size ptr + env.psp_size ptr) % 2 ^ 32) ∧
      decryptGateSize env ptr = max (env.elf_size ptr) (env.psp_size ptr) := by
  constructor
  · simp only [decryptGate, hmagic, if_true, u32add]
  · unfold decryptGateSize
    by_cases h : env.psp_size ptr > env.elf_size ptr
    · simp only [h, if_true]
      omega
    · simp only [h, if_false]
      omega

/-- C11, the code at the failing input: `pspBuffer` starts with the magic
`0x5053507e` and its header has `elf_size = 0x1000` and `psp_size = 0x1150`.
The gate works out `size = max(elf_size, psp_size) = 0x1150`, but the array
it allocates with `new u8[head->elf_size + head->psp_size]` has length
`0x2150`, the sum of the two fields. -/
theorem decrypt_buffer_is_sum_of_sizes :
    pspBuffer.u32 0 = 0x5053507e ∧
    (demoEnv none).elf_size pspBuffer = 0x1000 ∧
    (demoEnv none).psp_size pspBuffer = 0x1150 ∧
    max ((demoEnv none).elf_size pspBuffer) ((demoEnv none).psp_size pspBuffer) = 0x1150 ∧
    decryptGateSize (demoEnv none) pspBuffer = 0x1150 ∧
    (decryptGate (demoEnv none) pspBuffer).2 = some 0x2150 := by
  decide

end PPSSPP
